import Mathlib

/-!
# Verification of the Takyan game core

A shallow embedding of the per-frame simulation engine of the Takyan game
(physics, collision/scoring, player motion, dash/emotion timers, and the
`updateGameState` orchestration from `src/lib/gameLoop.ts`), together with
theorems about its behaviour.

Modelling conventions:
* JavaScript numbers are modelled as rationals (`ℚ`); the source performs
  only field arithmetic, `min`/`max`/`abs`, and comparisons on them.
* `Math.cos`, `Math.sin` and `Math.PI` are irrational-valued; they are
  modelled by an abstract parameter record `RealFuns`, and every theorem
  quantifies over it.  No verified property depends on their values (they
  only enter cosmetic rotation and particle-velocity fields).
* `Math.random()` and `Date.now()` are modelled by an explicit environment
  `Env`: a stream of draws indexed by the order in which the source calls
  `Math.random()`, plus a clock value.
* The JavaScript `%` operator (used only for cosmetic rotation wrapping)
  is `jsMod`; JS returns `NaN` for a zero divisor, modelled here as `0`.
-/

/-- Truncation toward zero, as used by the JavaScript `%` operator. -/
def jsTrunc (q : ℚ) : ℤ :=
  if 0 ≤ q then ⌊q⌋ else ⌈q⌉

/-- The JavaScript remainder operator `x % y` (sign follows the dividend).
JS yields `NaN` for `y = 0`; the model returns `0` there.  It is used by the
game only to wrap the cosmetic `rotation` fields modulo `2π`. -/
def jsMod (x y : ℚ) : ℚ :=
  if y = 0 then 0 else x - y * jsTrunc (x / y)

/-- Abstract stand-ins for `Math.cos`, `Math.sin` and `Math.PI`, which are
irrational-valued and only feed cosmetic fields (rotations, particle
velocities).  The embedding is parametric in them. -/
structure RealFuns where
  cos : ℚ → ℚ
  sin : ℚ → ℚ
  pi : ℚ

/-- The ambient effect environment: `rng n` is the value returned by the
`n`-th call to `Math.random()` within one entry point, and `now` is the
value `Date.now()` would return. -/
structure Env where
  rng : ℕ → ℚ
  now : ℚ

/-- `GameMode` from `types.ts`. -/
inductive GameMode where
  | practice
  | versus
deriving DecidableEq, Repr

/-- `AIDifficulty` from `types.ts`. -/
inductive AIDifficulty where
  | easy
  | medium
  | hard
deriving DecidableEq, Repr

/-- The TS literal type `1 | 2` used for `winner`, `lastScoringPlayer` and
the result of `determineScoringSide` (always wrapped in `null | 1 | 2`,
modelled as `Option Side`). -/
inductive Side where
  | one
  | two
deriving DecidableEq, Repr

/-- The TS literal type `CharacterType = 1 | 2 | 3`. -/
inductive CharacterType where
  | c1
  | c2
  | c3
deriving DecidableEq, Repr

/-- `PracticeState` from `types.ts`. -/
structure PracticeState where
  currentStreak : ℚ
  personalBest : ℚ
  totalKicks : ℚ
  lastDropTime : ℚ
  difficulty : AIDifficulty
deriving DecidableEq, Repr

/-- `Player` from `types.ts` (the current version with character/dash
fields).  `lastEmotion : string | null` is `Option String`. -/
structure Player where
  characterId : CharacterType
  x : ℚ
  y : ℚ
  score : ℚ
  width : ℚ
  height : ℚ
  rotation : ℚ
  isKicking : Bool
  kickAnimationFrame : ℚ
  kickAnimationDuration : ℚ
  lastX : ℚ
  facingLeft : Bool
  emotionTimer : ℚ
  lastEmotion : Option String
  animationTime : ℚ
  isDashing : Bool
  dashCooldown : ℚ
  dashDuration : ℚ
deriving DecidableEq, Repr

/-- `Takyan` from `types.ts`. -/
structure Takyan where
  x : ℚ
  y : ℚ
  velocityX : ℚ
  velocityY : ℚ
  radius : ℚ
  rotation : ℚ
deriving DecidableEq, Repr

/-- `GameState` from `types.ts`.  `winner`/`lastScoringPlayer` are
`null | 1 | 2`, and `practiceState` is optional. -/
structure GameState where
  player1 : Player
  player2 : Player
  takyan : Takyan
  winner : Option Side
  isPaused : Bool
  lastScoringPlayer : Option Side
  gameMode : GameMode
  combo : ℚ
  rallyCount : ℚ
  practiceState : Option PracticeState
deriving DecidableEq, Repr

/-- `InputState` from `types.ts`. -/
structure InputState where
  player1Left : Bool
  player1Right : Bool
  player1Kick : Bool
  player1Dash : Bool
  player2Left : Bool
  player2Right : Bool
  player2Kick : Bool
  player2Dash : Bool
deriving DecidableEq, Repr

/-- `GameConfig` from `types.ts` (current version with dash fields). -/
structure GameConfig where
  canvasWidth : ℚ
  canvasHeight : ℚ
  gravity : ℚ
  playerSpeed : ℚ
  dashSpeed : ℚ
  dashDuration : ℚ
  dashCooldownTime : ℚ
  kickPower : ℚ
  groundLevel : ℚ
  winningScore : ℚ
  fps : ℚ
  enableParticles : Bool
  enableScreenShake : Bool
  enableSound : Bool
  takyanRadius : ℚ
deriving DecidableEq, Repr

/-- The optional `customMultipliers` argument of `updateGameState`. -/
structure CustomMultipliers where
  ballSpeed : ℚ
  gravity : ℚ
  playerSpeed : ℚ
  isCustom : Bool
deriving DecidableEq, Repr

/-- `Particle` from `types.ts`. -/
structure Particle where
  x : ℚ
  y : ℚ
  velocityX : ℚ
  velocityY : ℚ
  life : ℚ
  maxLife : ℚ
  color : String
  size : ℚ
  alpha : ℚ
deriving DecidableEq, Repr

/-- `CharacterStats` from `types.ts`; the cosmetic `id`/`name`/`description`
display fields are omitted, only the multipliers are read by the core. -/
structure CharacterStats where
  speedMultiplier : ℚ
  powerMultiplier : ℚ
deriving DecidableEq, Repr

/-- `CHARACTER_STATS` from `types.ts`. -/
def CHARACTER_STATS : CharacterType → CharacterStats
  | .c1 => { speedMultiplier := 1, powerMultiplier := 1 }
  | .c2 => { speedMultiplier := 13/10, powerMultiplier := 8/10 }
  | .c3 => { speedMultiplier := 8/10, powerMultiplier := 13/10 }

/-- `AIDifficultyConfig` from `types.ts`; only the numeric multiplier fields
read by `updateGameState` are kept (`reactionDelay` etc. feed the external
AI layer, and `name`/`description` are display strings). -/
structure AIDifficultyConfig where
  ballSpeedMultiplier : ℚ
  gravityMultiplier : ℚ
  playerSpeedMultiplier : ℚ
deriving DecidableEq, Repr

/-- `AI_DIFFICULTIES` from `types.ts` (current version). -/
def AI_DIFFICULTIES : AIDifficulty → AIDifficultyConfig
  | .easy => { ballSpeedMultiplier := 4/10, gravityMultiplier := 5/10, playerSpeedMultiplier := 8/10 }
  | .medium => { ballSpeedMultiplier := 1, gravityMultiplier := 1, playerSpeedMultiplier := 1 }
  | .hard => { ballSpeedMultiplier := 15/10, gravityMultiplier := 13/10, playerSpeedMultiplier := 12/10 }

/-- `DEFAULT_CONFIG` from `types.ts` (current version). -/
def DEFAULT_CONFIG : GameConfig :=
  { canvasWidth := 800
    canvasHeight := 600
    gravity := 1/2
    playerSpeed := 5
    dashSpeed := 12
    dashDuration := 500
    dashCooldownTime := 1000
    kickPower := 15
    groundLevel := 500
    winningScore := 10
    fps := 60
    enableParticles := true
    enableScreenShake := true
    enableSound := true
    takyanRadius := 25 }

/-! ## Physics engine (`src/lib/physics.ts`) -/

/-- `updateTakyanPhysics` from `physics.ts`: Euler integration of gravity
and velocity.  `deltaTime` here is the already-scaled frame factor the game
loop passes (`deltaTime * 60`). -/
def updateTakyanPhysics (takyan : Takyan) (config : GameConfig)
    (deltaTime : ℚ) (gravityMultiplier : ℚ) : Takyan :=
  let newVelocityY := takyan.velocityY + (config.gravity * gravityMultiplier) * deltaTime
  let newY := takyan.y + newVelocityY * deltaTime
  let newX := takyan.x + takyan.velocityX * deltaTime
  { takyan with x := newX, y := newY, velocityY := newVelocityY }

/-- `applyKick` from `physics.ts`: unconditionally overwrites both velocity
components. -/
def applyKick (takyan : Takyan) (config : GameConfig)
    (horizontalDirection : ℚ) (ballSpeedMultiplier : ℚ) : Takyan :=
  { takyan with
      velocityY := -(config.kickPower * ballSpeedMultiplier)
      velocityX := horizontalDirection * 3 * ballSpeedMultiplier }

/-- `resetTakyan` from `physics.ts`.  When `addPopUpVelocity` is set the
source calls `Math.random()` once for the lateral serve velocity; `k` is the
index of that draw in the environment's stream. -/
def resetTakyan (e : Env) (k : ℕ) (config : GameConfig) (addPopUpVelocity : Bool) : Takyan :=
  let initialVelocityY : ℚ := if addPopUpVelocity then -10 else 0
  let initialVelocityX : ℚ := if addPopUpVelocity then (e.rng k - 1/2) * 6 else 0
  { x := config.canvasWidth / 2
    y := 100
    velocityX := initialVelocityX
    velocityY := initialVelocityY
    radius := config.takyanRadius
    rotation := 0 }

/-- `applyAirResistance` from `physics.ts` (the game loop always uses the
default factor `0.99`). -/
def applyAirResistance (takyan : Takyan) (factor : ℚ) : Takyan :=
  { takyan with velocityX := takyan.velocityX * factor }

/-! ## Collision and scoring (`collision.ts`, in the sources as
`src/unnamed/part_001`) -/

/-- The clamped x-coordinate of the closest point of the player rectangle
(`closestX` in `checkPlayerCollision`). -/
def closestPointX (takyan : Takyan) (player : Player) : ℚ :=
  max player.x (min takyan.x (player.x + player.width))

/-- The clamped y-coordinate of the closest point of the player rectangle
(`closestY` in `checkPlayerCollision`). -/
def closestPointY (takyan : Takyan) (player : Player) : ℚ :=
  max player.y (min takyan.y (player.y + player.height))

/-- `distanceSquared` computed by `checkPlayerCollision`. -/
def playerDistSq (takyan : Takyan) (player : Player) : ℚ :=
  let distanceX := takyan.x - closestPointX takyan player
  let distanceY := takyan.y - closestPointY takyan player
  distanceX * distanceX + distanceY * distanceY

/-- `checkPlayerCollision` from `collision.ts`: circle-vs-AABB test by the
closest-point method, with a strict `<` boundary. -/
def checkPlayerCollision (takyan : Takyan) (player : Player) : Bool :=
  decide (playerDistSq takyan player < takyan.radius * takyan.radius)

/-- `checkGroundCollision` from `collision.ts`. -/
def checkGroundCollision (takyan : Takyan) (config : GameConfig) : Bool :=
  decide (takyan.y + takyan.radius ≥ config.groundLevel)

/-- `determineScoringSide` from `collision.ts`: `null` while in the air,
otherwise the half (by the canvas centerline) the projectile landed on. -/
def determineScoringSide (takyan : Takyan) (config : GameConfig) : Option Side :=
  if !(checkGroundCollision takyan config) then none
  else
    let centerX := config.canvasWidth / 2
    if takyan.x < centerX then some Side.one else some Side.two

/-- `keepPlayerInBounds` from `collision.ts`: practice mode clamps to the
full court; versus mode clamps to the half of the court the player's current
`x` lies on (side is inferred positionally, not stored).  The game loop
passes a fourth argument that the collision module in the sources does not
declare; it is dropped here. -/
def keepPlayerInBounds (player : Player) (config : GameConfig) (isPracticeMode : Bool) : Player :=
  let newX :=
    if isPracticeMode then
      max 0 (min player.x (config.canvasWidth - player.width))
    else
      let centerX := config.canvasWidth / 2
      if player.x < centerX then
        max 0 (min player.x (centerX - player.width))
      else
        max centerX (min player.x (config.canvasWidth - player.width))
  { player with x := newX }

/-- Modelled from the spec: `checkBallBoundaryCollision` is imported by the
game loop from the collision module but is absent from the sources (the
collision file present there is an earlier revision without it).  The spec
describes it as `boundaryBounce`: "reflects horizontal velocity (and clamps
position) when projectile's horizontal extent passes canvas left/right
edges — prevents the projectile leaving the play field". -/
def checkBallBoundaryCollision (takyan : Takyan) (config : GameConfig) : Takyan :=
  if takyan.x - takyan.radius < 0 then
    { takyan with x := takyan.radius, velocityX := -takyan.velocityX }
  else if takyan.x + takyan.radius > config.canvasWidth then
    { takyan with x := config.canvasWidth - takyan.radius, velocityX := -takyan.velocityX }
  else takyan

/-! ## Input (`input.ts`, in the sources as `src/unnamed/part_002`) -/

/-- `applyPlayerInput` from `input.ts`: both held directions apply
additively (they cancel), not exclusively. -/
def applyPlayerInput (x : ℚ) (speed : ℚ) (moveLeft moveRight : Bool) : ℚ :=
  let x1 := if moveLeft then x - speed else x
  if moveRight then x1 + speed else x1

/-! ## Particle system (`src/lib/effects/particles.ts` and
`src/lib/constants.ts`) -/

/-- One emitter entry of `PARTICLE_CONFIG` from `constants.ts`. -/
structure ParticleEmitterConfig where
  count : ℕ
  minVelocity : ℚ
  maxVelocity : ℚ
  minSize : ℚ
  maxSize : ℚ
  lifetime : ℚ
deriving DecidableEq, Repr

/-- `PARTICLE_CONFIG.kick` from `constants.ts`. -/
def PARTICLE_CONFIG_kick : ParticleEmitterConfig :=
  { count := 12, minVelocity := 2, maxVelocity := 6, minSize := 2, maxSize := 4, lifetime := 4/10 }

/-- `PARTICLE_CONFIG.score` from `constants.ts`. -/
def PARTICLE_CONFIG_score : ParticleEmitterConfig :=
  { count := 20, minVelocity := 1, maxVelocity := 4, minSize := 3, maxSize := 6, lifetime := 6/10 }

/-- `PARTICLE_CONFIG.ground` from `constants.ts`. -/
def PARTICLE_CONFIG_ground : ParticleEmitterConfig :=
  { count := 10, minVelocity := 1/2, maxVelocity := 2, minSize := 3, maxSize := 5, lifetime := 3/10 }

/-- `COLORS.white` from `constants.ts`. -/
def COLORS_white : String := "#ffffff"

/-- `COLORS.player1` from `constants.ts`. -/
def COLORS_player1 : String := "#00d4ff"

/-- `COLORS.player2` from `constants.ts`. -/
def COLORS_player2 : String := "#ff006e"

/-- `COLORS.neonGreen` from `constants.ts`. -/
def COLORS_neonGreen : String := "#00ff88"

/-- `COLORS.takyanGold` from `constants.ts`. -/
def COLORS_takyanGold : String := "#FFD700"

/-- `COLORS.neonOrange` from `constants.ts`. -/
def COLORS_neonOrange : String := "#ffaa00"

/-- `COLORS.darkGray` from `constants.ts`. -/
def COLORS_darkGray : String := "#404040"

/-- The random three-way colour pick in `createScoreParticles`
(`[green, gold, orange][Math.floor(Math.random() * 3)]`); draws outside
`[0, 1)` would index out of bounds in JS (`undefined`). -/
def scoreParticleColor (q : ℚ) : String :=
  let j := ⌊3 * q⌋
  if j = 0 then COLORS_neonGreen
  else if j = 1 then COLORS_takyanGold
  else if j = 2 then COLORS_neonOrange
  else "undefined"

/-- `createKickParticles` from `particles.ts`.  Particle `i` consumes the
draws `k + 2*i` (speed) and `k + 2*i + 1` (size). -/
def createKickParticles (rf : RealFuns) (e : Env) (k : ℕ)
    (x y : ℚ) (playerColor : String) : List Particle :=
  let config := PARTICLE_CONFIG_kick
  (List.range config.count).map fun (i : ℕ) =>
    let angle := rf.pi * 2 * (i : ℚ) / (config.count : ℚ)
    let speed := config.minVelocity + e.rng (k + 2 * i) * (config.maxVelocity - config.minVelocity)
    { x := x
      y := y
      velocityX := rf.cos angle * speed
      velocityY := rf.sin angle * speed - 2
      life := 1
      maxLife := config.lifetime
      color := if i % 2 = 0 then playerColor else COLORS_white
      size := config.minSize + e.rng (k + 2 * i + 1) * (config.maxSize - config.minSize)
      alpha := 1 }

/-- `createScoreParticles` from `particles.ts`.  Particle `i` consumes the
draws `k + 5*i .. k + 5*i + 4` (angle, speed, x-offset, colour, size), in
the source's call order. -/
def createScoreParticles (rf : RealFuns) (e : Env) (k : ℕ)
    (x y : ℚ) : List Particle :=
  let config := PARTICLE_CONFIG_score
  (List.range config.count).map fun (i : ℕ) =>
    let angle := -rf.pi / 2 + (e.rng (k + 5 * i) - 1/2) * rf.pi
    let speed := config.minVelocity + e.rng (k + 5 * i + 1) * (config.maxVelocity - config.minVelocity)
    { x := x + (e.rng (k + 5 * i + 2) - 1/2) * 40
      y := y
      velocityX := rf.cos angle * speed
      velocityY := rf.sin angle * speed
      life := 1
      maxLife := config.lifetime
      color := scoreParticleColor (e.rng (k + 5 * i + 3))
      size := config.minSize + e.rng (k + 5 * i + 4) * (config.maxSize - config.minSize)
      alpha := 1 }

/-- `createGroundParticles` from `particles.ts`.  Particle `i` consumes the
draws `k + 4*i .. k + 4*i + 3` (angle, speed, x-offset, size). -/
def createGroundParticles (rf : RealFuns) (e : Env) (k : ℕ)
    (x y : ℚ) : List Particle :=
  let config := PARTICLE_CONFIG_ground
  (List.range config.count).map fun (i : ℕ) =>
    let angle := -rf.pi / 2 + (e.rng (k + 4 * i) - 1/2) * rf.pi / 2
    let speed := config.minVelocity + e.rng (k + 4 * i + 1) * (config.maxVelocity - config.minVelocity)
    { x := x + (e.rng (k + 4 * i + 2) - 1/2) * 20
      y := y
      velocityX := rf.cos angle * speed
      velocityY := rf.sin angle * speed
      life := 1
      maxLife := config.lifetime
      color := COLORS_darkGray
      size := config.minSize + e.rng (k + 4 * i + 3) * (config.maxSize - config.minSize)
      alpha := 7/10 }

/-- `ParticleEmitterType` from `types.ts`. -/
inductive ParticleEmitterType where
  | kick
  | score
  | ground
deriving DecidableEq, Repr

/-- `emitParticles` from `particles.ts`; `playerColor` is the optional
colour argument (`playerColor || COLORS.white` in the kick case). -/
def emitParticles (rf : RealFuns) (e : Env) (k : ℕ) (type : ParticleEmitterType)
    (x y : ℚ) (playerColor : Option String) : List Particle :=
  match type with
  | .kick => createKickParticles rf e k x y (playerColor.getD COLORS_white)
  | .score => createScoreParticles rf e k x y
  | .ground => createGroundParticles rf e k x y

/-- Number of `Math.random()` draws consumed by a kick emission. -/
def kickDraws : ℕ := 2 * PARTICLE_CONFIG_kick.count

/-- Number of `Math.random()` draws consumed by a ground emission. -/
def groundDraws : ℕ := 4 * PARTICLE_CONFIG_ground.count

/-- Number of `Math.random()` draws consumed by a score emission. -/
def scoreDraws : ℕ := 5 * PARTICLE_CONFIG_score.count

/-! ## Game loop (`src/lib/gameLoop.ts`)

`updateGameState` is embedded as a composition of named phase functions,
each mirroring one block of the source (line references in the doc
comments); the duplicated per-player blocks are defined once. -/

/-- `initializeGameState` from `gameLoop.ts`.  The environment is consulted
only through `resetTakyan` (one `Math.random()` draw in practice mode). -/
def initializeGameState (e : Env) (config : GameConfig) (gameMode : GameMode)
    (difficulty : AIDifficulty) (player1Character player2Character : CharacterType) :
    GameState :=
  let player1X := if gameMode = GameMode.practice
    then config.canvasWidth / 2 - 25
    else config.canvasWidth / 4 - 25
  let player2X := (config.canvasWidth / 4) * 3 - 25
  { player1 :=
      { characterId := player1Character
        x := player1X
        y := config.groundLevel - 100
        score := 0
        width := 50
        height := 100
        rotation := 0
        isKicking := false
        kickAnimationFrame := 0
        kickAnimationDuration := 150
        lastX := player1X
        facingLeft := false
        emotionTimer := 0
        lastEmotion := none
        animationTime := 0
        isDashing := false
        dashCooldown := 0
        dashDuration := 0 }
    player2 :=
      { characterId := player2Character
        x := player2X
        y := config.groundLevel - 100
        score := 0
        width := 50
        height := 100
        rotation := 0
        isKicking := false
        kickAnimationFrame := 0
        kickAnimationDuration := 150
        lastX := player2X
        facingLeft := false
        emotionTimer := 0
        lastEmotion := none
        animationTime := 0
        isDashing := false
        dashCooldown := 0
        dashDuration := 0 }
    takyan := resetTakyan e 0 config (gameMode = GameMode.practice)
    winner := none
    isPaused := false
    lastScoringPlayer := none
    gameMode := gameMode
    combo := 0
    rallyCount := 0
    practiceState := if gameMode = GameMode.practice
      then some { currentStreak := 0, personalBest := 0, totalKicks := 0,
                  lastDropTime := 0, difficulty := difficulty }
      else none }

/-- Multiplier resolution, `gameLoop.ts` lines 140–158: a flagged custom
override wins; otherwise the difficulty table applies in practice mode and
versus mode uses neutral `1.0` multipliers.  Returns
`(ballSpeed, gravity, playerSpeed)`. -/
def resolveMultipliers (state : GameState) (customMultipliers : Option CustomMultipliers) :
    ℚ × ℚ × ℚ :=
  match customMultipliers with
  | some cm =>
    if cm.isCustom then (cm.ballSpeed, cm.gravity, cm.playerSpeed)
    else
      let difficulty :=
        match state.gameMode, state.practiceState with
        | GameMode.practice, some ps => ps.difficulty
        | _, _ => AIDifficulty.medium
      let difficultyConfig := AI_DIFFICULTIES difficulty
      (if state.gameMode = GameMode.practice then difficultyConfig.ballSpeedMultiplier else 1,
       if state.gameMode = GameMode.practice then difficultyConfig.gravityMultiplier else 1,
       if state.gameMode = GameMode.practice then difficultyConfig.playerSpeedMultiplier else 1)
  | none =>
    let difficulty :=
      match state.gameMode, state.practiceState with
      | GameMode.practice, some ps => ps.difficulty
      | _, _ => AIDifficulty.medium
    let difficultyConfig := AI_DIFFICULTIES difficulty
    (if state.gameMode = GameMode.practice then difficultyConfig.ballSpeedMultiplier else 1,
     if state.gameMode = GameMode.practice then difficultyConfig.gravityMultiplier else 1,
     if state.gameMode = GameMode.practice then difficultyConfig.playerSpeedMultiplier else 1)

/-- Dash trigger, `gameLoop.ts` lines 163–177 (player 1) and 214–223
(player 2): a held dash key starts a dash only when the cooldown has
elapsed and no dash is in progress; the cooldown stays 0 at the start. -/
def tryStartDash (config : GameConfig) (dashInput : Bool) (p : Player) : Player :=
  if dashInput ∧ p.dashCooldown ≤ 0 ∧ p.isDashing = false then
    { p with isDashing := true, dashDuration := config.dashDuration, dashCooldown := 0 }
  else p

/-- Effective per-frame speed, `gameLoop.ts` lines 180–183 and 226–229. -/
def playerEffectiveSpeed (config : GameConfig) (playerSpeedMultiplier : ℚ) (p : Player) : ℚ :=
  let stats := CHARACTER_STATS p.characterId
  if p.isDashing then config.dashSpeed * playerSpeedMultiplier * stats.speedMultiplier
  else config.playerSpeed * playerSpeedMultiplier * stats.speedMultiplier

/-- Movement block for one player, `gameLoop.ts` lines 179–210 (player 1)
and 225–256 (player 2): input-driven motion from the pre-frame position
`origX`, bounds clamp, facing update, and cosmetic leg rotation from the
pre-frame `origRot`. -/
def movementPhase (rf : RealFuns) (config : GameConfig) (isPracticeMode : Bool)
    (playerSpeedMultiplier : ℚ) (left right : Bool) (origX origRot : ℚ)
    (dt : ℚ) (p : Player) : Player :=
  let speed := playerEffectiveSpeed config playerSpeedMultiplier p
  let newX := applyPlayerInput origX (speed * dt * 60) left right
  let q := keepPlayerInBounds { p with x := newX } config isPracticeMode
  let q := if left then { q with facingLeft := true }
    else if right then { q with facingLeft := false } else q
  if left ∨ right then { q with rotation := jsMod (origRot + 3/10) (rf.pi * 2) } else q

/-- Practice-streak bookkeeping on a successful kick, `gameLoop.ts`
lines 281–291. -/
def updateStreak (ps : Option PracticeState) : Option PracticeState :=
  match ps with
  | none => none
  | some p => some
      { p with
          currentStreak := p.currentStreak + 1
          totalKicks := p.totalKicks + 1
          personalBest := max p.personalBest (p.currentStreak + 1) }

/-- Whether player 1's kick lands this frame, `gameLoop.ts` line 264:
tested against the pre-frame takyan and player positions. -/
def kick1Happens (state : GameState) (input : InputState) : Bool :=
  input.player1Kick && checkPlayerCollision state.takyan state.player1

/-- Whether player 2's kick lands this frame, `gameLoop.ts` line 299:
only in versus mode and only when player 1 did not already kick. -/
def kick2Happens (state : GameState) (input : InputState) : Bool :=
  !(kick1Happens state input) && decide (state.gameMode = GameMode.versus)
    && input.player2Kick && checkPlayerCollision state.takyan state.player2

/-- The projectile after the kick/physics/boundary/rotation pipeline of one
frame, `gameLoop.ts` lines 259–333: optional kick override, Euler
integration with `deltaTime * 60`, air resistance (default factor `0.99`),
boundary bounce, and the cosmetic spin update from the pre-frame rotation. -/
def ballPhase (rf : RealFuns) (state : GameState) (input : InputState)
    (config : GameConfig) (dt : ℚ) (customMultipliers : Option CustomMultipliers) : Takyan :=
  let ballSpeedMultiplier := (resolveMultipliers state customMultipliers).1
  let gravityMultiplier := (resolveMultipliers state customMultipliers).2.1
  let kicked :=
    if kick1Happens state input then
      let direction : ℚ := if input.player1Left then -1 else if input.player1Right then 1 else 0
      applyKick state.takyan config direction
        (ballSpeedMultiplier * (CHARACTER_STATS state.player1.characterId).powerMultiplier)
    else if kick2Happens state input then
      let direction : ℚ := if input.player2Left then -1 else if input.player2Right then 1 else 0
      applyKick state.takyan config direction
        (ballSpeedMultiplier * (CHARACTER_STATS state.player2.characterId).powerMultiplier)
    else state.takyan
  let integrated := applyAirResistance
    (updateTakyanPhysics kicked config (dt * 60) gravityMultiplier) (99/100)
  let bounced := checkBallBoundaryCollision integrated config
  { bounced with
      rotation := jsMod (state.takyan.rotation + |bounced.velocityX| * (1/10)) (rf.pi * 2) }

/-- Scoring resolution, `gameLoop.ts` lines 337–408, applied to the state
whose ball, players, and rally/combo counters have already been updated for
this frame: reset combo/rally, then practice respawn-with-pop-up (one
`Math.random()` draw at index `k`) or versus point award, emotions, win
check and neutral respawn.  Particle emission is accounted separately. -/
def applyScoringState (e : Env) (k : ℕ) (config : GameConfig) (side : Side)
    (s : GameState) : GameState :=
  let s0 := { s with combo := 0, rallyCount := 0 }
  if s.gameMode = GameMode.practice then
    let ps := match s0.practiceState with
      | none => none
      | some p => some { p with currentStreak := 0, lastDropTime := e.now }
    { s0 with practiceState := ps, takyan := resetTakyan e k config true }
  else
    match side with
    | Side.one =>
      let p2 := { s0.player2 with
        score := s0.player2.score + 1, emotionTimer := 800, lastEmotion := some "Happy" }
      let p1 := { s0.player1 with emotionTimer := 800, lastEmotion := some "Angry" }
      let s1 := { s0 with player1 := p1, player2 := p2, lastScoringPlayer := some Side.two }
      if p1.score ≥ config.winningScore then { s1 with winner := some Side.one }
      else if p2.score ≥ config.winningScore then { s1 with winner := some Side.two }
      else { s1 with takyan := resetTakyan e k config false }
    | Side.two =>
      let p1 := { s0.player1 with
        score := s0.player1.score + 1, emotionTimer := 800, lastEmotion := some "Happy" }
      let p2 := { s0.player2 with emotionTimer := 800, lastEmotion := some "Angry" }
      let s1 := { s0 with player1 := p1, player2 := p2, lastScoringPlayer := some Side.one }
      if p1.score ≥ config.winningScore then { s1 with winner := some Side.one }
      else if p2.score ≥ config.winningScore then { s1 with winner := some Side.two }
      else { s1 with takyan := resetTakyan e k config false }

/-- Kick-animation timer, `gameLoop.ts` lines 411–441 (identical block per
player). -/
def tickKickAnim (dt : ℚ) (p : Player) : Player :=
  if p.isKicking then
    let f := p.kickAnimationFrame + dt * 1000
    if f ≥ p.kickAnimationDuration then
      { p with isKicking := false, kickAnimationFrame := 0 }
    else { p with kickAnimationFrame := f }
  else p

/-- Emotion timer decay, `gameLoop.ts` lines 444–466 (identical block per
player): decrement clamped at 0; `lastEmotion` cleared exactly when the
timer reaches 0. -/
def tickEmotion (dt : ℚ) (p : Player) : Player :=
  if p.emotionTimer > 0 then
    let t := max 0 (p.emotionTimer - dt * 1000)
    if t = 0 then { p with emotionTimer := t, lastEmotion := none }
    else { p with emotionTimer := t }
  else p

/-- Dash-duration timer, `gameLoop.ts` lines 471–481 and 493–502: while
dashing, decrement clamped at 0; the dash ends when it reaches 0, and the
cooldown is set to the full constant exactly then. -/
def tickDash (config : GameConfig) (dt : ℚ) (p : Player) : Player :=
  if p.isDashing then
    let newDashDuration := max 0 (p.dashDuration - dt * 1000)
    { p with
        dashDuration := newDashDuration
        isDashing := decide (newDashDuration > 0)
        dashCooldown := if newDashDuration = 0 then config.dashCooldownTime else p.dashCooldown }
  else p

/-- Dash-cooldown timer, `gameLoop.ts` lines 483–491 and 504–509. -/
def tickDashCooldown (dt : ℚ) (p : Player) : Player :=
  if p.dashCooldown > 0 then
    { p with dashCooldown := max 0 (p.dashCooldown - dt * 1000) }
  else p

/-- All per-player timers of one frame in source order, `gameLoop.ts`
lines 410–509: kick animation, emotion decay, dash duration, dash
cooldown. -/
def tickPlayerTimers (config : GameConfig) (dt : ℚ) (p : Player) : Player :=
  tickDashCooldown dt (tickDash config dt (tickEmotion dt (tickKickAnim dt p)))

/-- `lastX` bookkeeping, `gameLoop.ts` lines 513–523: each player's `lastX`
is set to its pre-frame position (player 2 only in versus mode). -/
def setLastXPhase (prev1 prev2 : ℚ) (s : GameState) : GameState :=
  let s1 := { s with player1 := { s.player1 with lastX := prev1 } }
  if s1.gameMode = GameMode.versus then
    { s1 with player2 := { s1.player2 with lastX := prev2 } }
  else s1

/-- `updateGameState` from `gameLoop.ts`: the per-frame transition.
Returns the new state together with the list of particles to emit
(`particlesToEmit`).  The environment indexes count the source's
`Math.random()` calls in order: kick particles, ground particles, then
either the practice respawn draw or the score particles. -/
def updateGameState (rf : RealFuns) (e : Env) (state : GameState) (input : InputState)
    (config : GameConfig) (dt : ℚ) (customMultipliers : Option CustomMultipliers) :
    GameState × List Particle :=
  if state.winner ≠ none ∨ state.isPaused = true then (state, [])
  else
    let playerSpeedMultiplier := (resolveMultipliers state customMultipliers).2.2
    let p1 := movementPhase rf config (state.gameMode = GameMode.practice)
      playerSpeedMultiplier input.player1Left input.player1Right
      state.player1.x state.player1.rotation dt
      (tryStartDash config input.player1Dash state.player1)
    let p2 := if state.gameMode = GameMode.versus then
        movementPhase rf config false
          playerSpeedMultiplier input.player2Left input.player2Right
          state.player2.x state.player2.rotation dt
          (tryStartDash config input.player2Dash state.player2)
      else state.player2
    let kick1 := kick1Happens state input
    let kick2 := kick2Happens state input
    let p1 := if kick1 then { p1 with isKicking := true, kickAnimationFrame := 0 } else p1
    let p2 := if kick2 then { p2 with isKicking := true, kickAnimationFrame := 0 } else p2
    let rally := if kick1 || kick2 then state.rallyCount + 1 else state.rallyCount
    let combo := if kick1 || kick2 then state.combo + 1 else state.combo
    let ps0 := if kick1 && decide (state.gameMode = GameMode.practice)
      then updateStreak state.practiceState else state.practiceState
    let takyan := ballPhase rf state input config dt customMultipliers
    let kickParts :=
      if (kick1 || kick2) && config.enableParticles then
        emitParticles rf e 0 ParticleEmitterType.kick state.takyan.x state.takyan.y
          (some (if kick1 then COLORS_player1 else COLORS_player2))
      else []
    let k1 := if (kick1 || kick2) && config.enableParticles then kickDraws else 0
    let s1 : GameState := { state with
      player1 := p1, player2 := p2, takyan := takyan,
      rallyCount := rally, combo := combo, practiceState := ps0 }
    match determineScoringSide takyan config with
    | none =>
      (setLastXPhase state.player1.x state.player2.x
        { s1 with
            player1 := tickPlayerTimers config dt s1.player1
            player2 := tickPlayerTimers config dt s1.player2 },
       kickParts)
    | some side =>
      let groundParts :=
        if config.enableParticles then
          emitParticles rf e k1 ParticleEmitterType.ground takyan.x config.groundLevel none
        else []
      let k2 := k1 + (if config.enableParticles then groundDraws else 0)
      let scoreParts :=
        if state.gameMode = GameMode.versus ∧ config.enableParticles = true then
          match side with
          | Side.one => emitParticles rf e k2 ParticleEmitterType.score
              (p2.x + p2.width / 2) p2.y none
          | Side.two => emitParticles rf e k2 ParticleEmitterType.score
              (p1.x + p1.width / 2) p1.y none
        else []
      let s2 := applyScoringState e k2 config side s1
      (setLastXPhase state.player1.x state.player2.x
        { s2 with
            player1 := tickPlayerTimers config dt s2.player1
            player2 := tickPlayerTimers config dt s2.player2 },
       kickParts ++ groundParts ++ scoreParts)

/-- JS truthiness for a nullable string (`null` and the empty string are
falsy). -/
def optTruthy : Option String → Bool
  | none => false
  | some s => decide (s ≠ "")

/-- `getPlayerAnimation` from `gameLoop.ts` lines 702–733: the priority
chain emotion → dash → kick → walk → idle, returning the animation
identifier string. -/
def getPlayerAnimation (player : Player) : String :=
  if player.emotionTimer > 0 ∧ optTruthy player.lastEmotion = true then
    player.lastEmotion.getD ""
  else if player.isDashing then "Dash"
  else if player.isKicking then "Walk_attack"
  else if |player.x - player.lastX| > 1/10 then "Walk"
  else "Idle2"

/-- `resetGame` from `gameLoop.ts`. -/
def resetGame (e : Env) (config : GameConfig) (gameMode : GameMode)
    (difficulty : AIDifficulty) (player1Character player2Character : CharacterType) :
    GameState :=
  initializeGameState e config gameMode difficulty player1Character player2Character

/-- The states reachable from `initializeGameState` by `updateGameState`
steps with non-negative `deltaTime` (the per-frame effect environments and
inputs may vary from frame to frame). -/
inductive Reachable (rf : RealFuns) : GameState → Prop where
  | init : ∀ (e : Env) (config : GameConfig) (gameMode : GameMode)
      (difficulty : AIDifficulty) (ch1 ch2 : CharacterType),
      Reachable rf (initializeGameState e config gameMode difficulty ch1 ch2)
  | step : ∀ (s : GameState) (e : Env) (input : InputState) (config : GameConfig)
      (dt : ℚ) (cm : Option CustomMultipliers),
      Reachable rf s → 0 ≤ dt →
      Reachable rf (updateGameState rf e s input config dt cm).1

/-! ## Concrete fixtures used by witnesses and counterexamples -/

/-- A concrete interpretation of the transcendental stand-ins (their values
are cosmetic; any choice is admissible). -/
def rfZero : RealFuns := { cos := fun _ => 0, sin := fun _ => 0, pi := 0 }

/-- An environment whose random stream is constantly `0`. -/
def zeroEnv : Env := { rng := fun _ => 0, now := 0 }

/-- An environment whose random stream is constantly `1/2`. -/
def halfEnv : Env := { rng := fun _ => 1/2, now := 0 }

/-- No keys held. -/
def idleInput : InputState :=
  { player1Left := false, player1Right := false, player1Kick := false, player1Dash := false,
    player2Left := false, player2Right := false, player2Kick := false, player2Dash := false }

/-- Player 1 holding right and dash. -/
def dashRightInput : InputState :=
  { idleInput with player1Right := true, player1Dash := true }

/-- Player 1 holding only the kick key. -/
def kickInput : InputState := { idleInput with player1Kick := true }

/-- The initial versus-mode state with the default config and balanced
characters. -/
def initVersus : GameState :=
  initializeGameState zeroEnv DEFAULT_CONFIG GameMode.versus AIDifficulty.medium
    CharacterType.c1 CharacterType.c1

/-- The initial versus state with the projectile repositioned to be in
ground contact at abscissa `bx` (`groundLevel = 500`, `radius = 25`,
`y + radius = 505 ≥ 500`). -/
def landingState (bx : ℚ) : GameState :=
  { initVersus with
    takyan := { x := bx, y := 480, velocityX := 0, velocityY := 0, radius := 25, rotation := 0 } }

/-- The initial versus state with the projectile overlapping player 1's
rectangle (so that a held kick key connects). -/
def kickState : GameState :=
  { initVersus with
    takyan := { x := 200, y := 450, velocityX := 0, velocityY := 0, radius := 25, rotation := 0 } }

/-- Default config with `winningScore` lowered to 1, so a single point wins. -/
def winIn1Config : GameConfig := { DEFAULT_CONFIG with winningScore := 1 }

/-- One frame of the run used to refute the half-court invariant: player 1
holds right and dash, at the frame-callback cadence `deltaTime = 0.1 s`
(the host's documented cap). -/
def c2Step (s : GameState) : GameState :=
  (updateGameState rfZero zeroEnv s dashRightInput DEFAULT_CONFIG (1/10) none).1

/-- `c2Step` iterated from the initial versus state. -/
def c2Run : ℕ → GameState
  | 0 => initVersus
  | n + 1 => c2Step (c2Run n)

/-- The initial player 1 of the default versus state, used as a base for
animation-selector inputs. -/
def basePlayer : Player := initVersus.player1

/-- A player mid-dash whose emotion timer is positive but whose recorded
emotion is `null`. -/
def emoNullDashPlayer : Player :=
  { basePlayer with emotionTimer := 1, lastEmotion := none, isDashing := true }

/-- A player mid-dash whose emotion timer is positive but whose recorded
emotion is the empty string (falsy in JS). -/
def emoEmptyDashPlayer : Player :=
  { basePlayer with emotionTimer := 1, lastEmotion := some "", isDashing := true }

/-- A projectile exactly tangent to player 1's rectangle (closest point
`(225, 450)` at distance exactly `radius = 25`). -/
def tangentBall : Takyan :=
  { x := 250, y := 450, velocityX := 0, velocityY := 0, radius := 25, rotation := 0 }

/-- The literal state after 1 frame of `c2Step` (player 1 holding
right and dash from the initial versus state). -/
def c2State1 : GameState :=
  { player1 :=
      { characterId := CharacterType.c1
        x := 247
        y := 400
        score := 0
        width := 50
        height := 100
        rotation := 0
        isKicking := false
        kickAnimationFrame := 0
        kickAnimationDuration := 150
        lastX := 175
        facingLeft := false
        emotionTimer := 0
        lastEmotion := none
        animationTime := 0
        isDashing := true
        dashCooldown := 0
        dashDuration := 400 }
    player2 :=
      { characterId := CharacterType.c1
        x := 575
        y := 400
        score := 0
        width := 50
        height := 100
        rotation := 0
        isKicking := false
        kickAnimationFrame := 0
        kickAnimationDuration := 150
        lastX := 575
        facingLeft := false
        emotionTimer := 0
        lastEmotion := none
        animationTime := 0
        isDashing := false
        dashCooldown := 0
        dashDuration := 0 }
    takyan := { x := 400, y := 118, velocityX := 0, velocityY := 3, radius := 25, rotation := 0 }
    winner := none
    isPaused := false
    lastScoringPlayer := none
    gameMode := GameMode.versus
    combo := 0
    rallyCount := 0
    practiceState := none }

/-- The literal state after 2 frames of `c2Step` (player 1 holding
right and dash from the initial versus state). -/
def c2State2 : GameState :=
  { player1 :=
      { characterId := CharacterType.c1
        x := 319
        y := 400
        score := 0
        width := 50
        height := 100
        rotation := 0
        isKicking := false
        kickAnimationFrame := 0
        kickAnimationDuration := 150
        lastX := 247
        facingLeft := false
        emotionTimer := 0
        lastEmotion := none
        animationTime := 0
        isDashing := true
        dashCooldown := 0
        dashDuration := 300 }
    player2 :=
      { characterId := CharacterType.c1
        x := 575
        y := 400
        score := 0
        width := 50
        height := 100
        rotation := 0
        isKicking := false
        kickAnimationFrame := 0
        kickAnimationDuration := 150
        lastX := 575
        facingLeft := false
        emotionTimer := 0
        lastEmotion := none
        animationTime := 0
        isDashing := false
        dashCooldown := 0
        dashDuration := 0 }
    takyan := { x := 400, y := 154, velocityX := 0, velocityY := 6, radius := 25, rotation := 0 }
    winner := none
    isPaused := false
    lastScoringPlayer := none
    gameMode := GameMode.versus
    combo := 0
    rallyCount := 0
    practiceState := none }

/-- The literal state after 3 frames of `c2Step` (player 1 holding
right and dash from the initial versus state). -/
def c2State3 : GameState :=
  { player1 :=
      { characterId := CharacterType.c1
        x := 350
        y := 400
        score := 0
        width := 50
        height := 100
        rotation := 0
        isKicking := false
        kickAnimationFrame := 0
        kickAnimationDuration := 150
        lastX := 319
        facingLeft := false
        emotionTimer := 0
        lastEmotion := none
        animationTime := 0
        isDashing := true
        dashCooldown := 0
        dashDuration := 200 }
    player2 :=
      { characterId := CharacterType.c1
        x := 575
        y := 400
        score := 0
        width := 50
        height := 100
        rotation := 0
        isKicking := false
        kickAnimationFrame := 0
        kickAnimationDuration := 150
        lastX := 575
        facingLeft := false
        emotionTimer := 0
        lastEmotion := none
        animationTime := 0
        isDashing := false
        dashCooldown := 0
        dashDuration := 0 }
    takyan := { x := 400, y := 208, velocityX := 0, velocityY := 9, radius := 25, rotation := 0 }
    winner := none
    isPaused := false
    lastScoringPlayer := none
    gameMode := GameMode.versus
    combo := 0
    rallyCount := 0
    practiceState := none }

/-- The literal state after 4 frames of `c2Step` (player 1 holding
right and dash from the initial versus state). -/
def c2State4 : GameState :=
  { player1 :=
      { characterId := CharacterType.c1
        x := 422
        y := 400
        score := 0
        width := 50
        height := 100
        rotation := 0
        isKicking := false
        kickAnimationFrame := 0
        kickAnimationDuration := 150
        lastX := 350
        facingLeft := false
        emotionTimer := 0
        lastEmotion := none
        animationTime := 0
        isDashing := true
        dashCooldown := 0
        dashDuration := 100 }
    player2 :=
      { characterId := CharacterType.c1
        x := 575
        y := 400
        score := 0
        width := 50
        height := 100
        rotation := 0
        isKicking := false
        kickAnimationFrame := 0
        kickAnimationDuration := 150
        lastX := 575
        facingLeft := false
        emotionTimer := 0
        lastEmotion := none
        animationTime := 0
        isDashing := false
        dashCooldown := 0
        dashDuration := 0 }
    takyan := { x := 400, y := 280, velocityX := 0, velocityY := 12, radius := 25, rotation := 0 }
    winner := none
    isPaused := false
    lastScoringPlayer := none
    gameMode := GameMode.versus
    combo := 0
    rallyCount := 0
    practiceState := none }

/-- The per-player emotion invariant: the timer is non-negative and is
positive exactly when an emotion label is recorded. -/
def emoInv (p : Player) : Prop :=
  0 ≤ p.emotionTimer ∧ (0 < p.emotionTimer ↔ p.lastEmotion ≠ none)

/-- The emotion invariant for both players of a state. -/
def EmotionInv (s : GameState) : Prop :=
  emoInv s.player1 ∧ emoInv s.player2

/-! ## Helper lemmas: field preservation through the frame phases -/

section PreservationLemmas

variable (rf : RealFuns) (config : GameConfig) (dt : ℚ) (p : Player)

@[simp] lemma tickKickAnim_score : (tickKickAnim dt p).score = p.score := by
  simp only [tickKickAnim]; split_ifs <;> rfl

@[simp] lemma tickKickAnim_x : (tickKickAnim dt p).x = p.x := by
  simp only [tickKickAnim]; split_ifs <;> rfl

@[simp] lemma tickKickAnim_width : (tickKickAnim dt p).width = p.width := by
  simp only [tickKickAnim]; split_ifs <;> rfl

@[simp] lemma tickKickAnim_emotionTimer : (tickKickAnim dt p).emotionTimer = p.emotionTimer := by
  simp only [tickKickAnim]; split_ifs <;> rfl

@[simp] lemma tickKickAnim_lastEmotion : (tickKickAnim dt p).lastEmotion = p.lastEmotion := by
  simp only [tickKickAnim]; split_ifs <;> rfl

@[simp] lemma tickKickAnim_isDashing : (tickKickAnim dt p).isDashing = p.isDashing := by
  simp only [tickKickAnim]; split_ifs <;> rfl

@[simp] lemma tickKickAnim_dashCooldown : (tickKickAnim dt p).dashCooldown = p.dashCooldown := by
  simp only [tickKickAnim]; split_ifs <;> rfl

@[simp] lemma tickKickAnim_dashDuration : (tickKickAnim dt p).dashDuration = p.dashDuration := by
  simp only [tickKickAnim]; split_ifs <;> rfl

@[simp] lemma tickEmotion_score : (tickEmotion dt p).score = p.score := by
  simp only [tickEmotion]; split_ifs <;> rfl

@[simp] lemma tickEmotion_x : (tickEmotion dt p).x = p.x := by
  simp only [tickEmotion]; split_ifs <;> rfl

@[simp] lemma tickEmotion_width : (tickEmotion dt p).width = p.width := by
  simp only [tickEmotion]; split_ifs <;> rfl

@[simp] lemma tickEmotion_isDashing : (tickEmotion dt p).isDashing = p.isDashing := by
  simp only [tickEmotion]; split_ifs <;> rfl

@[simp] lemma tickEmotion_dashCooldown : (tickEmotion dt p).dashCooldown = p.dashCooldown := by
  simp only [tickEmotion]; split_ifs <;> rfl

@[simp] lemma tickEmotion_dashDuration : (tickEmotion dt p).dashDuration = p.dashDuration := by
  simp only [tickEmotion]; split_ifs <;> rfl

@[simp] lemma tickDash_score : (tickDash config dt p).score = p.score := by
  simp only [tickDash]; split_ifs <;> rfl

@[simp] lemma tickDash_x : (tickDash config dt p).x = p.x := by
  simp only [tickDash]; split_ifs <;> rfl

@[simp] lemma tickDash_width : (tickDash config dt p).width = p.width := by
  simp only [tickDash]; split_ifs <;> rfl

@[simp] lemma tickDash_emotionTimer : (tickDash config dt p).emotionTimer = p.emotionTimer := by
  simp only [tickDash]; split_ifs <;> rfl

@[simp] lemma tickDash_lastEmotion : (tickDash config dt p).lastEmotion = p.lastEmotion := by
  simp only [tickDash]; split_ifs <;> rfl

@[simp] lemma tickDashCooldown_score : (tickDashCooldown dt p).score = p.score := by
  simp only [tickDashCooldown]; split_ifs <;> rfl

@[simp] lemma tickDashCooldown_x : (tickDashCooldown dt p).x = p.x := by
  simp only [tickDashCooldown]; split_ifs <;> rfl

@[simp] lemma tickDashCooldown_width : (tickDashCooldown dt p).width = p.width := by
  simp only [tickDashCooldown]; split_ifs <;> rfl

@[simp] lemma tickDashCooldown_emotionTimer :
    (tickDashCooldown dt p).emotionTimer = p.emotionTimer := by
  simp only [tickDashCooldown]; split_ifs <;> rfl

@[simp] lemma tickDashCooldown_lastEmotion :
    (tickDashCooldown dt p).lastEmotion = p.lastEmotion := by
  simp only [tickDashCooldown]; split_ifs <;> rfl

@[simp] lemma tickDashCooldown_isDashing :
    (tickDashCooldown dt p).isDashing = p.isDashing := by
  simp only [tickDashCooldown]; split_ifs <;> rfl

@[simp] lemma tickDashCooldown_dashDuration :
    (tickDashCooldown dt p).dashDuration = p.dashDuration := by
  simp only [tickDashCooldown]; split_ifs <;> rfl

@[simp] lemma tickPlayerTimers_score : (tickPlayerTimers config dt p).score = p.score := by
  simp only [tickPlayerTimers]; simp

@[simp] lemma tickPlayerTimers_x : (tickPlayerTimers config dt p).x = p.x := by
  simp only [tickPlayerTimers]; simp

@[simp] lemma tickPlayerTimers_width : (tickPlayerTimers config dt p).width = p.width := by
  simp only [tickPlayerTimers]; simp

@[simp] lemma tryStartDash_score (d : Bool) : (tryStartDash config d p).score = p.score := by
  simp only [tryStartDash]; split_ifs <;> rfl

@[simp] lemma tryStartDash_x (d : Bool) : (tryStartDash config d p).x = p.x := by
  simp only [tryStartDash]; split_ifs <;> rfl

@[simp] lemma tryStartDash_width (d : Bool) : (tryStartDash config d p).width = p.width := by
  simp only [tryStartDash]; split_ifs <;> rfl

@[simp] lemma tryStartDash_emotionTimer (d : Bool) :
    (tryStartDash config d p).emotionTimer = p.emotionTimer := by
  simp only [tryStartDash]; split_ifs <;> rfl

@[simp] lemma tryStartDash_lastEmotion (d : Bool) :
    (tryStartDash config d p).lastEmotion = p.lastEmotion := by
  simp only [tryStartDash]; split_ifs <;> rfl

@[simp] lemma keepPlayerInBounds_score (b : Bool) :
    (keepPlayerInBounds p config b).score = p.score := rfl

@[simp] lemma keepPlayerInBounds_width (b : Bool) :
    (keepPlayerInBounds p config b).width = p.width := rfl

@[simp] lemma keepPlayerInBounds_emotionTimer (b : Bool) :
    (keepPlayerInBounds p config b).emotionTimer = p.emotionTimer := rfl

@[simp] lemma keepPlayerInBounds_lastEmotion (b : Bool) :
    (keepPlayerInBounds p config b).lastEmotion = p.lastEmotion := rfl

@[simp] lemma keepPlayerInBounds_isDashing (b : Bool) :
    (keepPlayerInBounds p config b).isDashing = p.isDashing := rfl

@[simp] lemma keepPlayerInBounds_dashCooldown (b : Bool) :
    (keepPlayerInBounds p config b).dashCooldown = p.dashCooldown := rfl

@[simp] lemma keepPlayerInBounds_dashDuration (b : Bool) :
    (keepPlayerInBounds p config b).dashDuration = p.dashDuration := rfl

@[simp] lemma movementPhase_score (b l r : Bool) (ox orot : ℚ) (m : ℚ) :
    (movementPhase rf config b m l r ox orot dt p).score = p.score := by
  simp only [movementPhase]; split_ifs <;> simp

@[simp] lemma movementPhase_width (b l r : Bool) (ox orot : ℚ) (m : ℚ) :
    (movementPhase rf config b m l r ox orot dt p).width = p.width := by
  simp only [movementPhase]; split_ifs <;> simp

@[simp] lemma movementPhase_emotionTimer (b l r : Bool) (ox orot : ℚ) (m : ℚ) :
    (movementPhase rf config b m l r ox orot dt p).emotionTimer = p.emotionTimer := by
  simp only [movementPhase]; split_ifs <;> simp

@[simp] lemma movementPhase_lastEmotion (b l r : Bool) (ox orot : ℚ) (m : ℚ) :
    (movementPhase rf config b m l r ox orot dt p).lastEmotion = p.lastEmotion := by
  simp only [movementPhase]; split_ifs <;> simp

@[simp] lemma movementPhase_isDashing (b l r : Bool) (ox orot : ℚ) (m : ℚ) :
    (movementPhase rf config b m l r ox orot dt p).isDashing = p.isDashing := by
  simp only [movementPhase]; split_ifs <;> simp

@[simp] lemma movementPhase_dashCooldown (b l r : Bool) (ox orot : ℚ) (m : ℚ) :
    (movementPhase rf config b m l r ox orot dt p).dashCooldown = p.dashCooldown := by
  simp only [movementPhase]; split_ifs <;> simp

@[simp] lemma movementPhase_dashDuration (b l r : Bool) (ox orot : ℚ) (m : ℚ) :
    (movementPhase rf config b m l r ox orot dt p).dashDuration = p.dashDuration := by
  simp only [movementPhase]; split_ifs <;> simp

end PreservationLemmas

section StatePreservationLemmas

variable (e : Env) (k : ℕ) (config : GameConfig) (side : Side) (s : GameState)
variable (prev1 prev2 : ℚ)

@[simp] lemma setLastXPhase_player1_score :
    (setLastXPhase prev1 prev2 s).player1.score = s.player1.score := by
  simp only [setLastXPhase]; split_ifs <;> rfl

@[simp] lemma setLastXPhase_player2_score :
    (setLastXPhase prev1 prev2 s).player2.score = s.player2.score := by
  simp only [setLastXPhase]; split_ifs <;> rfl

@[simp] lemma setLastXPhase_player1_x :
    (setLastXPhase prev1 prev2 s).player1.x = s.player1.x := by
  simp only [setLastXPhase]; split_ifs <;> rfl

@[simp] lemma setLastXPhase_player2_x :
    (setLastXPhase prev1 prev2 s).player2.x = s.player2.x := by
  simp only [setLastXPhase]; split_ifs <;> rfl

@[simp] lemma setLastXPhase_winner :
    (setLastXPhase prev1 prev2 s).winner = s.winner := by
  simp only [setLastXPhase]; split_ifs <;> rfl

@[simp] lemma setLastXPhase_takyan :
    (setLastXPhase prev1 prev2 s).takyan = s.takyan := by
  simp only [setLastXPhase]; split_ifs <;> rfl

lemma applyScoringState_player1_x :
    (applyScoringState e k config side s).player1.x = s.player1.x := by
  simp only [applyScoringState]; split_ifs <;> cases side <;> simp_all

lemma applyScoringState_player2_x :
    (applyScoringState e k config side s).player2.x = s.player2.x := by
  simp only [applyScoringState]; split_ifs <;> cases side <;> simp_all

end StatePreservationLemmas

/-! ## Helper lemmas: geometry of the closest-point clamp -/

/-- The per-axis clamp `max lo (min a hi)` minimises the squared distance
to `a` over the interval `[lo, hi]`. -/
lemma clamp_minimises_sq (a lo hi q : ℚ) (h1 : lo ≤ q) (h2 : q ≤ hi) :
    (a - max lo (min a hi)) * (a - max lo (min a hi)) ≤ (a - q) * (a - q) := by
  rcases le_total a lo with h | h
  · have hah : a ≤ hi := le_trans h (le_trans h1 h2)
    rw [min_eq_left hah, max_eq_left h]
    nlinarith
  · rcases le_total a hi with h' | h'
    · rw [min_eq_left h', max_eq_right h]
      nlinarith
    · have hlh : lo ≤ hi := le_trans h1 h2
      rw [min_eq_right h', max_eq_right hlh]
      nlinarith

/-! ## Claim theorems -/

/-- C4.  `applyKick` overwrites the vertical velocity with exactly
`-kickPower * powerMultiplier` and the horizontal velocity with exactly
`horizontalDirection * 3 * powerMultiplier`, leaving position, radius and
rotation untouched, regardless of the projectile's prior velocity; hence a
second kick applied immediately after a first one leaves the projectile
exactly as if only the second kick had been applied (override, not sum). -/
theorem applyKick_overrides_velocity :
    ∀ (t : Takyan) (c : GameConfig) (d m : ℚ),
      (applyKick t c d m).velocityY = -(c.kickPower * m) ∧
      (applyKick t c d m).velocityX = d * 3 * m ∧
      (applyKick t c d m).x = t.x ∧
      (applyKick t c d m).y = t.y ∧
      (applyKick t c d m).radius = t.radius ∧
      (applyKick t c d m).rotation = t.rotation ∧
      ∀ (d' m' : ℚ), applyKick (applyKick t c d' m') c d m = applyKick t c d m := by
  intro t c d m
  exact ⟨rfl, rfl, rfl, rfl, rfl, rfl, fun d' m' => rfl⟩

/-- C5.  `checkPlayerCollision` is the closest-point circle-vs-AABB test:
it returns `true` iff the squared distance from the projectile centre to the
clamped closest point of the player rectangle is strictly below `radius²`;
the clamped point indeed minimises the squared distance over the rectangle;
and at exact equality with `radius²` no collision is registered. -/
theorem checkPlayerCollision_strict_closest_point :
    (∀ (t : Takyan) (p : Player),
        checkPlayerCollision t p = true ↔ playerDistSq t p < t.radius * t.radius) ∧
    (∀ (t : Takyan) (p : Player) (qx qy : ℚ),
        p.x ≤ qx → qx ≤ p.x + p.width → p.y ≤ qy → qy ≤ p.y + p.height →
        playerDistSq t p ≤ (t.x - qx) * (t.x - qx) + (t.y - qy) * (t.y - qy)) ∧
    (∀ (t : Takyan) (p : Player),
        playerDistSq t p = t.radius * t.radius → checkPlayerCollision t p = false) := by
  refine ⟨fun t p => ?_, fun t p qx qy hx1 hx2 hy1 hy2 => ?_, fun t p h => ?_⟩
  · simp [checkPlayerCollision]
  · have hX := clamp_minimises_sq t.x p.x (p.x + p.width) qx hx1 hx2
    have hY := clamp_minimises_sq t.y p.y (p.y + p.height) qy hy1 hy2
    simp only [playerDistSq, closestPointX, closestPointY]
    linarith
  · simp [checkPlayerCollision, h]

/-- Witness for C5: the minimality part applied to the kick fixture at the
interior point `(180, 420)` of player 1's rectangle, and the boundary part
applied to a projectile exactly tangent to that rectangle. -/
theorem checkPlayerCollision_strict_closest_point_witness :
    (playerDistSq kickState.takyan kickState.player1 ≤
      (kickState.takyan.x - 180) * (kickState.takyan.x - 180) +
      (kickState.takyan.y - 420) * (kickState.takyan.y - 420)) ∧
    checkPlayerCollision tangentBall kickState.player1 = false :=
  ⟨checkPlayerCollision_strict_closest_point.2.1 kickState.takyan kickState.player1 180 420
      (by simp [kickState, initVersus, initializeGameState, DEFAULT_CONFIG]; norm_num)
      (by simp [kickState, initVersus, initializeGameState, DEFAULT_CONFIG]; norm_num)
      (by simp [kickState, initVersus, initializeGameState, DEFAULT_CONFIG]; norm_num)
      (by simp [kickState, initVersus, initializeGameState, DEFAULT_CONFIG]; norm_num),
   checkPlayerCollision_strict_closest_point.2.2 tangentBall kickState.player1
      (by simp [playerDistSq, closestPointX, closestPointY, tangentBall, kickState, initVersus,
            initializeGameState, DEFAULT_CONFIG]
          norm_num)⟩

/-! ## Helper lemmas: behaviour of individual phases -/

lemma applyScoringState_one_p2score (e : Env) (k : ℕ) (c : GameConfig) (s : GameState)
    (hm : s.gameMode = GameMode.versus) :
    (applyScoringState e k c Side.one s).player2.score = s.player2.score + 1 := by
  simp only [applyScoringState, hm]
  split_ifs <;> simp_all

lemma applyScoringState_one_p1score (e : Env) (k : ℕ) (c : GameConfig) (s : GameState)
    (hm : s.gameMode = GameMode.versus) :
    (applyScoringState e k c Side.one s).player1.score = s.player1.score := by
  simp only [applyScoringState, hm]
  split_ifs <;> simp_all

lemma applyScoringState_two_p1score (e : Env) (k : ℕ) (c : GameConfig) (s : GameState)
    (hm : s.gameMode = GameMode.versus) :
    (applyScoringState e k c Side.two s).player1.score = s.player1.score + 1 := by
  simp only [applyScoringState, hm]
  split_ifs <;> simp_all

lemma applyScoringState_two_p2score (e : Env) (k : ℕ) (c : GameConfig) (s : GameState)
    (hm : s.gameMode = GameMode.versus) :
    (applyScoringState e k c Side.two s).player2.score = s.player2.score := by
  simp only [applyScoringState, hm]
  split_ifs <;> simp_all

lemma applyScoringState_two_win (e : Env) (k : ℕ) (c : GameConfig) (s : GameState)
    (hm : s.gameMode = GameMode.versus) (h : c.winningScore ≤ s.player1.score + 1) :
    (applyScoringState e k c Side.two s).winner = some Side.one ∧
    (applyScoringState e k c Side.two s).takyan = s.takyan := by
  simp only [applyScoringState, hm]
  split_ifs with h1 h2 <;> simp_all

lemma applyScoringState_one_win (e : Env) (k : ℕ) (c : GameConfig) (s : GameState)
    (hm : s.gameMode = GameMode.versus) (h1 : s.player1.score < c.winningScore)
    (h2 : c.winningScore ≤ s.player2.score + 1) :
    (applyScoringState e k c Side.one s).winner = some Side.two ∧
    (applyScoringState e k c Side.one s).takyan = s.takyan := by
  simp only [applyScoringState, hm]
  split_ifs with hA hB hC <;> simp_all <;> linarith

lemma applyScoringState_p1_isDashing (e : Env) (k : ℕ) (c : GameConfig) (side : Side)
    (s : GameState) :
    (applyScoringState e k c side s).player1.isDashing = s.player1.isDashing := by
  simp only [applyScoringState]; cases side <;> split_ifs <;> rfl

lemma applyScoringState_p1_dashCooldown (e : Env) (k : ℕ) (c : GameConfig) (side : Side)
    (s : GameState) :
    (applyScoringState e k c side s).player1.dashCooldown = s.player1.dashCooldown := by
  simp only [applyScoringState]; cases side <;> split_ifs <;> rfl

lemma applyScoringState_p1_dashDuration (e : Env) (k : ℕ) (c : GameConfig) (side : Side)
    (s : GameState) :
    (applyScoringState e k c side s).player1.dashDuration = s.player1.dashDuration := by
  simp only [applyScoringState]; cases side <;> split_ifs <;> rfl

lemma applyScoringState_p1_isKicking (e : Env) (k : ℕ) (c : GameConfig) (side : Side)
    (s : GameState) :
    (applyScoringState e k c side s).player1.isKicking = s.player1.isKicking := by
  simp only [applyScoringState]; cases side <;> split_ifs <;> rfl

lemma applyScoringState_p1_emotion_inv (e : Env) (k : ℕ) (c : GameConfig) (side : Side)
    (s : GameState) (h : emoInv s.player1) :
    emoInv (applyScoringState e k c side s).player1 := by
  by_cases hm : s.gameMode = GameMode.practice
  · simp only [applyScoringState, if_pos hm]
    simpa using h
  · simp only [applyScoringState, if_neg hm]
    cases side <;> split_ifs <;> simp [emoInv] <;> norm_num

lemma applyScoringState_p2_emotion_inv (e : Env) (k : ℕ) (c : GameConfig) (side : Side)
    (s : GameState) (h : emoInv s.player2) :
    emoInv (applyScoringState e k c side s).player2 := by
  by_cases hm : s.gameMode = GameMode.practice
  · simp only [applyScoringState, if_pos hm]
    simpa using h
  · simp only [applyScoringState, if_neg hm]
    cases side <;> split_ifs <;> simp [emoInv] <;> norm_num

/-- `resetTakyan` without pop-up velocity consults neither the random
stream nor the clock. -/
lemma resetTakyan_false (e : Env) (k : ℕ) (c : GameConfig) :
    resetTakyan e k c false =
      { x := c.canvasWidth / 2, y := 100, velocityX := 0, velocityY := 0,
        radius := c.takyanRadius, rotation := 0 } := by
  simp [resetTakyan]

/-- In versus mode the scoring resolution is independent of the effect
environment (the neutral respawn draws nothing and the clock is read only
by the practice branch). -/
lemma applyScoringState_env (e1 e2 : Env) (k1 k2 : ℕ) (c : GameConfig) (side : Side)
    (s : GameState) (hm : s.gameMode = GameMode.versus) :
    applyScoringState e1 k1 c side s = applyScoringState e2 k2 c side s := by
  simp only [applyScoringState, hm]
  cases side <;> split_ifs <;> simp_all [resetTakyan_false]

/-- A dash request is ignored while the cooldown runs or a dash is in
progress. -/
lemma tryStartDash_blocked (c : GameConfig) (d : Bool) (p : Player)
    (h : p.dashCooldown > 0 ∨ p.isDashing = true) :
    tryStartDash c d p = p := by
  simp only [tryStartDash]
  split_ifs with hc
  · rcases h with h | h
    · exact absurd hc.2.1 (by simp; linarith)
    · exact absurd hc.2.2 (by simp [h])
  · rfl

/-- The x-coordinate produced by the movement block is exactly the
bounds-clamped post-input position. -/
lemma movementPhase_x (rf : RealFuns) (c : GameConfig) (b l r : Bool) (m ox orot dt : ℚ)
    (p : Player) :
    (movementPhase rf c b m l r ox orot dt p).x =
      (keepPlayerInBounds
        { p with x := applyPlayerInput ox (playerEffectiveSpeed c m p * dt * 60) l r }
        c b).x := by
  simp only [movementPhase]
  split_ifs <;> rfl

/-- In versus mode the clamp keeps a player inside the full court, provided
the player is no wider than half the court. -/
lemma keepPlayerInBounds_versus_bounds (p : Player) (c : GameConfig)
    (h0 : 0 ≤ p.width) (h2 : p.width ≤ c.canvasWidth / 2) :
    0 ≤ (keepPlayerInBounds p c false).x ∧
    (keepPlayerInBounds p c false).x ≤ c.canvasWidth - p.width := by
  simp only [keepPlayerInBounds, Bool.false_eq_true, if_false]
  split_ifs with h
  · refine ⟨le_max_left _ _, max_le (by linarith) ?_⟩
    exact le_trans (min_le_right _ _) (by linarith)
  · refine ⟨le_trans (by linarith) (le_max_left _ _), max_le (by linarith) ?_⟩
    exact le_trans (min_le_right _ _) (by linarith)

/-- In versus mode the clamp sends a player to the half of the court its
current (pre-clamp) x lies on. -/
lemma keepPlayerInBounds_versus_halves (p : Player) (c : GameConfig)
    (h0 : 0 ≤ p.width) (h2 : p.width ≤ c.canvasWidth / 2) :
    (p.x < c.canvasWidth / 2 →
      0 ≤ (keepPlayerInBounds p c false).x ∧
      (keepPlayerInBounds p c false).x ≤ c.canvasWidth / 2 - p.width) ∧
    (¬ p.x < c.canvasWidth / 2 →
      c.canvasWidth / 2 ≤ (keepPlayerInBounds p c false).x ∧
      (keepPlayerInBounds p c false).x ≤ c.canvasWidth - p.width) := by
  simp only [keepPlayerInBounds, Bool.false_eq_true, if_false]
  constructor
  · intro h
    rw [if_pos h]
    exact ⟨le_max_left _ _, max_le (by linarith) (min_le_right _ _)⟩
  · intro h
    rw [if_neg h]
    refine ⟨le_max_left _ _, max_le (by linarith) ?_⟩
    exact le_trans (min_le_right _ _) (by linarith)

lemma setLastXPhase_p1_emotionTimer (prev1 prev2 : ℚ) (s : GameState) :
    (setLastXPhase prev1 prev2 s).player1.emotionTimer = s.player1.emotionTimer := by
  simp only [setLastXPhase]; split_ifs <;> rfl

lemma setLastXPhase_p1_lastEmotion (prev1 prev2 : ℚ) (s : GameState) :
    (setLastXPhase prev1 prev2 s).player1.lastEmotion = s.player1.lastEmotion := by
  simp only [setLastXPhase]; split_ifs <;> rfl

lemma setLastXPhase_p2_emotionTimer (prev1 prev2 : ℚ) (s : GameState) :
    (setLastXPhase prev1 prev2 s).player2.emotionTimer = s.player2.emotionTimer := by
  simp only [setLastXPhase]; split_ifs <;> rfl

lemma setLastXPhase_p2_lastEmotion (prev1 prev2 : ℚ) (s : GameState) :
    (setLastXPhase prev1 prev2 s).player2.lastEmotion = s.player2.lastEmotion := by
  simp only [setLastXPhase]; split_ifs <;> rfl

lemma setLastXPhase_p1_isDashing (prev1 prev2 : ℚ) (s : GameState) :
    (setLastXPhase prev1 prev2 s).player1.isDashing = s.player1.isDashing := by
  simp only [setLastXPhase]; split_ifs <;> rfl

lemma setLastXPhase_p1_dashCooldown (prev1 prev2 : ℚ) (s : GameState) :
    (setLastXPhase prev1 prev2 s).player1.dashCooldown = s.player1.dashCooldown := by
  simp only [setLastXPhase]; split_ifs <;> rfl

lemma setLastXPhase_p1_dashDuration (prev1 prev2 : ℚ) (s : GameState) :
    (setLastXPhase prev1 prev2 s).player1.dashDuration = s.player1.dashDuration := by
  simp only [setLastXPhase]; split_ifs <;> rfl

/-- `emoInv` depends only on the emotion fields. -/
lemma emoInv_of_fields (p q : Player) (hT : p.emotionTimer = q.emotionTimer)
    (hE : p.lastEmotion = q.lastEmotion) (h : emoInv q) : emoInv p := by
  simpa [emoInv, hT, hE] using h

/-- The emotion decay step preserves the emotion invariant. -/
lemma emoInv_tickEmotion (dt : ℚ) (p : Player) (h : emoInv p) : emoInv (tickEmotion dt p) := by
  simp only [tickEmotion]
  split_ifs with h1 h2
  · simp [emoInv, h2]
  · refine ⟨le_max_left _ _, ?_⟩
    have hpos : 0 < max 0 (p.emotionTimer - dt * 1000) :=
      lt_of_le_of_ne (le_max_left _ _) (Ne.symm h2)
    simpa [hpos] using fun hc => absurd (h.2.mp h1) (by simp [hc])
  · exact h

/-- The whole per-player timer block preserves the emotion invariant. -/
lemma emoInv_tickPlayerTimers (c : GameConfig) (dt : ℚ) (p : Player) (h : emoInv p) :
    emoInv (tickPlayerTimers c dt p) := by
  unfold tickPlayerTimers
  have h1 : emoInv (tickKickAnim dt p) :=
    emoInv_of_fields _ p (by simp) (by simp) h
  have h2 : emoInv (tickEmotion dt (tickKickAnim dt p)) := emoInv_tickEmotion _ _ h1
  exact emoInv_of_fields _ _ (by simp) (by simp) h2

/-! ## The dash run that crosses the centerline (four literal frames) -/

set_option maxHeartbeats 2000000 in
/-- Frame 1 of the dash-right run. -/
lemma c2_frame1 :
    (updateGameState rfZero zeroEnv initVersus dashRightInput DEFAULT_CONFIG (1/10) none).1
      = c2State1 := by
  simp [updateGameState, resolveMultipliers, AI_DIFFICULTIES, movementPhase, tryStartDash,
    playerEffectiveSpeed, CHARACTER_STATS, applyPlayerInput, keepPlayerInBounds, kick1Happens,
    kick2Happens, checkPlayerCollision, playerDistSq, closestPointX, closestPointY, ballPhase,
    applyKick, updateTakyanPhysics, applyAirResistance, checkBallBoundaryCollision, jsMod, jsTrunc,
    determineScoringSide, checkGroundCollision, applyScoringState, tickPlayerTimers,
    tickDashCooldown, tickDash, tickEmotion, tickKickAnim, setLastXPhase, updateStreak, resetTakyan,
    rfZero, zeroEnv, dashRightInput, idleInput, initVersus, initializeGameState, DEFAULT_CONFIG,
    c2State1, c2State2, c2State3, c2State4]
  norm_num

set_option maxHeartbeats 2000000 in
/-- Frame 2 of the dash-right run. -/
lemma c2_frame2 :
    (updateGameState rfZero zeroEnv c2State1 dashRightInput DEFAULT_CONFIG (1/10) none).1
      = c2State2 := by
  simp [updateGameState, resolveMultipliers, AI_DIFFICULTIES, movementPhase, tryStartDash,
    playerEffectiveSpeed, CHARACTER_STATS, applyPlayerInput, keepPlayerInBounds, kick1Happens,
    kick2Happens, checkPlayerCollision, playerDistSq, closestPointX, closestPointY, ballPhase,
    applyKick, updateTakyanPhysics, applyAirResistance, checkBallBoundaryCollision, jsMod, jsTrunc,
    determineScoringSide, checkGroundCollision, applyScoringState, tickPlayerTimers,
    tickDashCooldown, tickDash, tickEmotion, tickKickAnim, setLastXPhase, updateStreak, resetTakyan,
    rfZero, zeroEnv, dashRightInput, idleInput, initVersus, initializeGameState, DEFAULT_CONFIG,
    c2State1, c2State2, c2State3, c2State4]
  norm_num

set_option maxHeartbeats 2000000 in
/-- Frame 3 of the dash-right run. -/
lemma c2_frame3 :
    (updateGameState rfZero zeroEnv c2State2 dashRightInput DEFAULT_CONFIG (1/10) none).1
      = c2State3 := by
  simp [updateGameState, resolveMultipliers, AI_DIFFICULTIES, movementPhase, tryStartDash,
    playerEffectiveSpeed, CHARACTER_STATS, applyPlayerInput, keepPlayerInBounds, kick1Happens,
    kick2Happens, checkPlayerCollision, playerDistSq, closestPointX, closestPointY, ballPhase,
    applyKick, updateTakyanPhysics, applyAirResistance, checkBallBoundaryCollision, jsMod, jsTrunc,
    determineScoringSide, checkGroundCollision, applyScoringState, tickPlayerTimers,
    tickDashCooldown, tickDash, tickEmotion, tickKickAnim, setLastXPhase, updateStreak, resetTakyan,
    rfZero, zeroEnv, dashRightInput, idleInput, initVersus, initializeGameState, DEFAULT_CONFIG,
    c2State1, c2State2, c2State3, c2State4]
  norm_num

set_option maxHeartbeats 2000000 in
/-- Frame 4 of the dash-right run. -/
lemma c2_frame4 :
    (updateGameState rfZero zeroEnv c2State3 dashRightInput DEFAULT_CONFIG (1/10) none).1
      = c2State4 := by
  simp [updateGameState, resolveMultipliers, AI_DIFFICULTIES, movementPhase, tryStartDash,
    playerEffectiveSpeed, CHARACTER_STATS, applyPlayerInput, keepPlayerInBounds, kick1Happens,
    kick2Happens, checkPlayerCollision, playerDistSq, closestPointX, closestPointY, ballPhase,
    applyKick, updateTakyanPhysics, applyAirResistance, checkBallBoundaryCollision, jsMod, jsTrunc,
    determineScoringSide, checkGroundCollision, applyScoringState, tickPlayerTimers,
    tickDashCooldown, tickDash, tickEmotion, tickKickAnim, setLastXPhase, updateStreak, resetTakyan,
    rfZero, zeroEnv, dashRightInput, idleInput, initVersus, initializeGameState, DEFAULT_CONFIG,
    c2State1, c2State2, c2State3, c2State4]
  norm_num

/-- C1.  `determineScoringSide` returns `none` without ground contact, and
on ground contact returns side 1 exactly when the projectile's x is left of
`canvasWidth / 2` and side 2 otherwise; in versus mode `updateGameState`
credits the point to the opposite player (a side-1 landing increments
player 2's score and a side-2 landing increments player 1's), and
concretely a landing at `x = centerX - 1` yields score 1 for player 2 while
a landing at `x = centerX + 1` yields score 1 for player 1. -/
theorem determineScoringSide_spec_and_credit :
    (∀ (t : Takyan) (c : GameConfig),
        (checkGroundCollision t c = false → determineScoringSide t c = none) ∧
        (checkGroundCollision t c = true →
          (t.x < c.canvasWidth / 2 → determineScoringSide t c = some Side.one) ∧
          (¬ t.x < c.canvasWidth / 2 → determineScoringSide t c = some Side.two))) ∧
    (∀ (rf : RealFuns) (e : Env) (s : GameState) (inp : InputState) (c : GameConfig)
        (dt : ℚ) (cm : Option CustomMultipliers),
        s.gameMode = GameMode.versus → s.winner = none → s.isPaused = false →
        (determineScoringSide (ballPhase rf s inp c dt cm) c = some Side.one →
          (updateGameState rf e s inp c dt cm).1.player2.score = s.player2.score + 1 ∧
          (updateGameState rf e s inp c dt cm).1.player1.score = s.player1.score) ∧
        (determineScoringSide (ballPhase rf s inp c dt cm) c = some Side.two →
          (updateGameState rf e s inp c dt cm).1.player1.score = s.player1.score + 1 ∧
          (updateGameState rf e s inp c dt cm).1.player2.score = s.player2.score)) ∧
    ((updateGameState rfZero zeroEnv (landingState (DEFAULT_CONFIG.canvasWidth / 2 - 1))
        idleInput DEFAULT_CONFIG 0 none).1.player2.score = 1 ∧
     (updateGameState rfZero zeroEnv (landingState (DEFAULT_CONFIG.canvasWidth / 2 - 1))
        idleInput DEFAULT_CONFIG 0 none).1.player1.score = 0) ∧
    ((updateGameState rfZero zeroEnv (landingState (DEFAULT_CONFIG.canvasWidth / 2 + 1))
        idleInput DEFAULT_CONFIG 0 none).1.player1.score = 1 ∧
     (updateGameState rfZero zeroEnv (landingState (DEFAULT_CONFIG.canvasWidth / 2 + 1))
        idleInput DEFAULT_CONFIG 0 none).1.player2.score = 0) := by
  have hcredit : ∀ (rf : RealFuns) (e : Env) (s : GameState) (inp : InputState) (c : GameConfig)
      (dt : ℚ) (cm : Option CustomMultipliers),
      s.gameMode = GameMode.versus → s.winner = none → s.isPaused = false →
      (determineScoringSide (ballPhase rf s inp c dt cm) c = some Side.one →
        (updateGameState rf e s inp c dt cm).1.player2.score = s.player2.score + 1 ∧
        (updateGameState rf e s inp c dt cm).1.player1.score = s.player1.score) ∧
      (determineScoringSide (ballPhase rf s inp c dt cm) c = some Side.two →
        (updateGameState rf e s inp c dt cm).1.player1.score = s.player1.score + 1 ∧
        (updateGameState rf e s inp c dt cm).1.player2.score = s.player2.score) := by
    intro rf e s inp c dt cm hm hw hp
    constructor
    · intro hside
      constructor
      · simp only [updateGameState, hw, hp, ne_eq, not_true_eq_false, or_false, if_false,
          Bool.false_eq_true, reduceIte, hside]
        simp only [setLastXPhase_player2_score, GameState.player2, tickPlayerTimers_score]
        rw [applyScoringState_one_p2score _ _ _ _ (by simp [hm])]
        simp [apply_ite Player.score, hm]
      · simp only [updateGameState, hw, hp, ne_eq, not_true_eq_false, or_false, if_false,
          Bool.false_eq_true, reduceIte, hside]
        simp only [setLastXPhase_player1_score, GameState.player1, tickPlayerTimers_score]
        rw [applyScoringState_one_p1score _ _ _ _ (by simp [hm])]
        simp [apply_ite Player.score, hm]
    · intro hside
      constructor
      · simp only [updateGameState, hw, hp, ne_eq, not_true_eq_false, or_false, if_false,
          Bool.false_eq_true, reduceIte, hside]
        simp only [setLastXPhase_player1_score, GameState.player1, tickPlayerTimers_score]
        rw [applyScoringState_two_p1score _ _ _ _ (by simp [hm])]
        simp [apply_ite Player.score, hm]
      · simp only [updateGameState, hw, hp, ne_eq, not_true_eq_false, or_false, if_false,
          Bool.false_eq_true, reduceIte, hside]
        simp only [setLastXPhase_player2_score, GameState.player2, tickPlayerTimers_score]
        rw [applyScoringState_two_p2score _ _ _ _ (by simp [hm])]
        simp [apply_ite Player.score, hm]
  refine ⟨?_, hcredit, ?_, ?_⟩
  · intro t c
    refine ⟨fun h => by simp [determineScoringSide, h],
      fun h => ⟨fun hx => by simp [determineScoringSide, h, hx],
        fun hx => by simp [determineScoringSide, h, hx]⟩⟩
  · have h := hcredit rfZero zeroEnv (landingState (DEFAULT_CONFIG.canvasWidth / 2 - 1))
      idleInput DEFAULT_CONFIG 0 none (by simp [landingState, initVersus, initializeGameState])
      (by simp [landingState, initVersus, initializeGameState])
      (by simp [landingState, initVersus, initializeGameState])
    have hside : determineScoringSide
        (ballPhase rfZero (landingState (DEFAULT_CONFIG.canvasWidth / 2 - 1)) idleInput
          DEFAULT_CONFIG 0 none) DEFAULT_CONFIG = some Side.one := by
      simp [ballPhase, resolveMultipliers, kick1Happens, kick2Happens, checkPlayerCollision,
        playerDistSq, closestPointX, closestPointY, applyKick, updateTakyanPhysics,
        applyAirResistance, checkBallBoundaryCollision, jsMod, jsTrunc, determineScoringSide,
        checkGroundCollision, landingState, initVersus, initializeGameState, DEFAULT_CONFIG,
        idleInput, rfZero, AI_DIFFICULTIES]
      norm_num
    obtain ⟨h2, h1⟩ := h.1 hside
    rw [h2, h1]
    constructor <;> simp [landingState, initVersus, initializeGameState]
  · have h := hcredit rfZero zeroEnv (landingState (DEFAULT_CONFIG.canvasWidth / 2 + 1))
      idleInput DEFAULT_CONFIG 0 none (by simp [landingState, initVersus, initializeGameState])
      (by simp [landingState, initVersus, initializeGameState])
      (by simp [landingState, initVersus, initializeGameState])
    have hside : determineScoringSide
        (ballPhase rfZero (landingState (DEFAULT_CONFIG.canvasWidth / 2 + 1)) idleInput
          DEFAULT_CONFIG 0 none) DEFAULT_CONFIG = some Side.two := by
      simp [ballPhase, resolveMultipliers, kick1Happens, kick2Happens, checkPlayerCollision,
        playerDistSq, closestPointX, closestPointY, applyKick, updateTakyanPhysics,
        applyAirResistance, checkBallBoundaryCollision, jsMod, jsTrunc, determineScoringSide,
        checkGroundCollision, landingState, initVersus, initializeGameState, DEFAULT_CONFIG,
        idleInput, rfZero, AI_DIFFICULTIES]
      norm_num
    obtain ⟨h1, h2⟩ := h.2 hside
    rw [h1, h2]
    constructor <;> simp [landingState, initVersus, initializeGameState]

/-- C2 (amended).  In versus mode an `updateGameState` step leaves each
player inside the full court `[0, canvasWidth - width]` (provided players
are no wider than half the court), and the clamp confines a player to the
half of the court its current pre-clamp x lies on — the left half exactly
when that x is left of the centerline.  The original claim that player 1
always stays in the left half fails: the side is re-inferred from the
position each frame, so one frame of dash displacement larger than the
player width carries a player across the centerline (see the
counterexample). -/
theorem versus_clamp_bounds :
    (∀ (rf : RealFuns) (e : Env) (s : GameState) (inp : InputState) (c : GameConfig)
        (dt : ℚ) (cm : Option CustomMultipliers),
        s.gameMode = GameMode.versus → s.winner = none → s.isPaused = false →
        0 ≤ s.player1.width → s.player1.width ≤ c.canvasWidth / 2 →
        0 ≤ s.player2.width → s.player2.width ≤ c.canvasWidth / 2 →
        (0 ≤ (updateGameState rf e s inp c dt cm).1.player1.x ∧
          (updateGameState rf e s inp c dt cm).1.player1.x ≤ c.canvasWidth - s.player1.width) ∧
        (0 ≤ (updateGameState rf e s inp c dt cm).1.player2.x ∧
          (updateGameState rf e s inp c dt cm).1.player2.x ≤ c.canvasWidth - s.player2.width)) ∧
    (∀ (q : Player) (c : GameConfig), 0 ≤ q.width → q.width ≤ c.canvasWidth / 2 →
        (q.x < c.canvasWidth / 2 →
          0 ≤ (keepPlayerInBounds q c false).x ∧
          (keepPlayerInBounds q c false).x ≤ c.canvasWidth / 2 - q.width) ∧
        (¬ q.x < c.canvasWidth / 2 →
          c.canvasWidth / 2 ≤ (keepPlayerInBounds q c false).x ∧
          (keepPlayerInBounds q c false).x ≤ c.canvasWidth - q.width)) := by
  constructor
  · intro rf e s inp c dt cm hm hw hp h10 h12 h20 h22
    constructor
    · rcases hds : determineScoringSide (ballPhase rf s inp c dt cm) c with _ | side <;>
      · simp only [updateGameState, hw, hp, ne_eq, not_true_eq_false, or_false, if_false,
          Bool.false_eq_true, reduceIte, hds]
        simp only [setLastXPhase_player1_x, GameState.player1, tickPlayerTimers_x,
          applyScoringState_player1_x, apply_ite Player.x, ite_self]
        rw [movementPhase_x]
        have hb := keepPlayerInBounds_versus_bounds
          { tryStartDash c inp.player1Dash s.player1 with
              x := applyPlayerInput s.player1.x
                (playerEffectiveSpeed c (resolveMultipliers s cm).2.2
                  (tryStartDash c inp.player1Dash s.player1) * dt * 60)
                inp.player1Left inp.player1Right }
          c (by simpa using h10) (by simpa using h12)
        simpa [hm] using hb
    · rcases hds : determineScoringSide (ballPhase rf s inp c dt cm) c with _ | side <;>
      · simp only [updateGameState, hw, hp, ne_eq, not_true_eq_false, or_false, if_false,
          Bool.false_eq_true, reduceIte, hds, hm]
        simp only [setLastXPhase_player2_x, GameState.player2, tickPlayerTimers_x,
          applyScoringState_player2_x, apply_ite Player.x, ite_self]
        rw [movementPhase_x]
        have hb := keepPlayerInBounds_versus_bounds
          { tryStartDash c inp.player2Dash s.player2 with
              x := applyPlayerInput s.player2.x
                (playerEffectiveSpeed c (resolveMultipliers s cm).2.2
                  (tryStartDash c inp.player2Dash s.player2) * dt * 60)
                inp.player2Left inp.player2Right }
          c (by simpa using h20) (by simpa using h22)
        simpa [hm] using hb
  · intro q c h0 h2
    exact keepPlayerInBounds_versus_halves q c h0 h2

/-- Witness for C2 (amended): one idle frame from the initial versus state
keeps both players inside the full court. -/
theorem versus_clamp_bounds_witness :
    (0 ≤ (updateGameState rfZero zeroEnv initVersus idleInput DEFAULT_CONFIG (1/10) none).1.player1.x ∧
      (updateGameState rfZero zeroEnv initVersus idleInput DEFAULT_CONFIG (1/10) none).1.player1.x ≤
        DEFAULT_CONFIG.canvasWidth - initVersus.player1.width) ∧
    (0 ≤ (updateGameState rfZero zeroEnv initVersus idleInput DEFAULT_CONFIG (1/10) none).1.player2.x ∧
      (updateGameState rfZero zeroEnv initVersus idleInput DEFAULT_CONFIG (1/10) none).1.player2.x ≤
        DEFAULT_CONFIG.canvasWidth - initVersus.player2.width) :=
  versus_clamp_bounds.1 rfZero zeroEnv initVersus idleInput DEFAULT_CONFIG (1/10) none
    (by simp [initVersus, initializeGameState])
    (by simp [initVersus, initializeGameState])
    (by simp [initVersus, initializeGameState])
    (by simp [initVersus, initializeGameState])
    (by simp [initVersus, initializeGameState, DEFAULT_CONFIG]; norm_num)
    (by simp [initVersus, initializeGameState])
    (by simp [initVersus, initializeGameState, DEFAULT_CONFIG]; norm_num)

/-- Counterexample to C2 as stated: the state reached after three
dash-right frames from the initial versus state has player 1 at `x = 350`
(left half), and the next `updateGameState` step — with the host's capped
`deltaTime = 0.1 s` — puts player 1 at `x = 422`, inside the right half of
the court. -/
theorem versus_half_court_counterexample :
    Reachable rfZero c2State3 ∧
    c2State3.gameMode = GameMode.versus ∧
    c2State3.winner = none ∧
    c2State3.isPaused = false ∧
    (0 : ℚ) ≤ 1/10 ∧
    c2State3.player1.x < DEFAULT_CONFIG.canvasWidth / 2 ∧
    (updateGameState rfZero zeroEnv c2State3 dashRightInput DEFAULT_CONFIG (1/10) none).1.player1.x
      = 422 ∧
    ¬ (updateGameState rfZero zeroEnv c2State3 dashRightInput DEFAULT_CONFIG
        (1/10) none).1.player1.x < DEFAULT_CONFIG.canvasWidth / 2 := by
  refine ⟨?_, by simp [c2State3], by simp [c2State3], by simp [c2State3], by norm_num,
    by norm_num [c2State3, DEFAULT_CONFIG], ?_, ?_⟩
  · have h0 : Reachable rfZero initVersus :=
      Reachable.init zeroEnv DEFAULT_CONFIG GameMode.versus AIDifficulty.medium
        CharacterType.c1 CharacterType.c1
    have h1 : Reachable rfZero c2State1 := by
      have hstep := Reachable.step initVersus zeroEnv dashRightInput DEFAULT_CONFIG (1/10) none
        h0 (by norm_num)
      rwa [c2_frame1] at hstep
    have h2 : Reachable rfZero c2State2 := by
      have hstep := Reachable.step c2State1 zeroEnv dashRightInput DEFAULT_CONFIG (1/10) none
        h1 (by norm_num)
      rwa [c2_frame2] at hstep
    have hstep := Reachable.step c2State2 zeroEnv dashRightInput DEFAULT_CONFIG (1/10) none
      h2 (by norm_num)
    rwa [c2_frame3] at hstep
  · rw [c2_frame4]
    simp [c2State4]
  · rw [c2_frame4]
    norm_num [c2State4, DEFAULT_CONFIG]

lemma applyScoringState_two_winner (e : Env) (k : ℕ) (c : GameConfig) (s : GameState)
    (hm : s.gameMode = GameMode.versus) (h : c.winningScore ≤ s.player1.score + 1) :
    (applyScoringState e k c Side.two s).winner = some Side.one :=
  (applyScoringState_two_win e k c s hm h).1

lemma applyScoringState_two_takyan (e : Env) (k : ℕ) (c : GameConfig) (s : GameState)
    (hm : s.gameMode = GameMode.versus) (h : c.winningScore ≤ s.player1.score + 1) :
    (applyScoringState e k c Side.two s).takyan = s.takyan :=
  (applyScoringState_two_win e k c s hm h).2

lemma applyScoringState_one_winner (e : Env) (k : ℕ) (c : GameConfig) (s : GameState)
    (hm : s.gameMode = GameMode.versus) (h1 : s.player1.score < c.winningScore)
    (h2 : c.winningScore ≤ s.player2.score + 1) :
    (applyScoringState e k c Side.one s).winner = some Side.two :=
  (applyScoringState_one_win e k c s hm h1 h2).1

lemma applyScoringState_one_takyan (e : Env) (k : ℕ) (c : GameConfig) (s : GameState)
    (hm : s.gameMode = GameMode.versus) (h1 : s.player1.score < c.winningScore)
    (h2 : c.winningScore ≤ s.player2.score + 1) :
    (applyScoringState e k c Side.one s).takyan = s.takyan :=
  (applyScoringState_one_win e k c s hm h1 h2).2

/-- C3.  In versus mode, on the frame whose landing brings the scoring
player's score exactly to `winningScore`, the step sets `winner` to that
player and the projectile is not reset: it keeps the position and velocity
produced by this frame's physics pipeline (`ballPhase`) instead of being
respawned. -/
theorem winning_frame_sets_winner_and_skips_reset :
    ∀ (rf : RealFuns) (e : Env) (s : GameState) (inp : InputState) (c : GameConfig)
      (dt : ℚ) (cm : Option CustomMultipliers),
      s.gameMode = GameMode.versus → s.winner = none → s.isPaused = false →
      (determineScoringSide (ballPhase rf s inp c dt cm) c = some Side.two →
        s.player1.score + 1 = c.winningScore →
        (updateGameState rf e s inp c dt cm).1.winner = some Side.one ∧
        (updateGameState rf e s inp c dt cm).1.takyan = ballPhase rf s inp c dt cm) ∧
      (determineScoringSide (ballPhase rf s inp c dt cm) c = some Side.one →
        s.player2.score + 1 = c.winningScore → s.player1.score < c.winningScore →
        (updateGameState rf e s inp c dt cm).1.winner = some Side.two ∧
        (updateGameState rf e s inp c dt cm).1.takyan = ballPhase rf s inp c dt cm) := by
  intro rf e s inp c dt cm hm hw hp
  constructor
  · intro hside hscore
    constructor
    · simp only [updateGameState, hw, hp, ne_eq, not_true_eq_false, or_false, if_false,
        Bool.false_eq_true, reduceIte, hside]
      simp only [setLastXPhase_winner]
      rw [applyScoringState_two_winner _ _ _ _ (by simp [hm])
        (by simp [apply_ite Player.score, hm]; linarith)]
    · simp only [updateGameState, hw, hp, ne_eq, not_true_eq_false, or_false, if_false,
        Bool.false_eq_true, reduceIte, hside]
      simp only [setLastXPhase_takyan]
      rw [applyScoringState_two_takyan _ _ _ _ (by simp [hm])
        (by simp [apply_ite Player.score, hm]; linarith)]
  · intro hside hscore hless
    constructor
    · simp only [updateGameState, hw, hp, ne_eq, not_true_eq_false, or_false, if_false,
        Bool.false_eq_true, reduceIte, hside]
      simp only [setLastXPhase_winner]
      rw [applyScoringState_one_winner _ _ _ _ (by simp [hm])
        (by simp [apply_ite Player.score, hm]; linarith)
        (by simp [apply_ite Player.score, hm]; linarith)]
    · simp only [updateGameState, hw, hp, ne_eq, not_true_eq_false, or_false, if_false,
        Bool.false_eq_true, reduceIte, hside]
      simp only [setLastXPhase_takyan]
      rw [applyScoringState_one_takyan _ _ _ _ (by simp [hm])
        (by simp [apply_ite Player.score, hm]; linarith)
        (by simp [apply_ite Player.score, hm]; linarith)]

/-- Witness for C3: with `winningScore = 1`, a landing at `x = 399` (side 1)
makes player 2 the winner, and the projectile keeps its pipeline position
instead of being respawned. -/
theorem winning_frame_witness :
    (updateGameState rfZero zeroEnv (landingState 399) idleInput winIn1Config 0 none).1.winner
      = some Side.two ∧
    (updateGameState rfZero zeroEnv (landingState 399) idleInput winIn1Config 0 none).1.takyan
      = ballPhase rfZero (landingState 399) idleInput winIn1Config 0 none :=
  (winning_frame_sets_winner_and_skips_reset rfZero zeroEnv (landingState 399) idleInput
      winIn1Config 0 none
      (by simp [landingState, initVersus, initializeGameState])
      (by simp [landingState, initVersus, initializeGameState])
      (by simp [landingState, initVersus, initializeGameState])).2
    (by
      simp [ballPhase, resolveMultipliers, kick1Happens, kick2Happens, checkPlayerCollision,
        playerDistSq, closestPointX, closestPointY, applyKick, updateTakyanPhysics,
        applyAirResistance, checkBallBoundaryCollision, jsMod, jsTrunc, determineScoringSide,
        checkGroundCollision, landingState, initVersus, initializeGameState, DEFAULT_CONFIG,
        winIn1Config, idleInput, rfZero, AI_DIFFICULTIES]
      norm_num)
    (by simp [landingState, initVersus, initializeGameState, winIn1Config, DEFAULT_CONFIG])
    (by simp [landingState, initVersus, initializeGameState, winIn1Config, DEFAULT_CONFIG])

/-- C6.  A dash request is accepted only when the cooldown has elapsed and
no dash is in progress: while `dashCooldown > 0` (and the player is not
dashing) a held dash key leaves `isDashing` false after the whole step and
the cooldown merely continues to decay (it is not reset to the full
constant); the trigger itself is the identity whenever the cooldown runs or
a dash is already in progress, and it can only set `isDashing` from the
dash input with `dashCooldown ≤ 0`. -/
theorem dash_request_gating :
    (∀ (rf : RealFuns) (e : Env) (s : GameState) (inp : InputState) (c : GameConfig)
        (dt : ℚ) (cm : Option CustomMultipliers),
        s.winner = none → s.isPaused = false →
        s.player1.dashCooldown > 0 → s.player1.isDashing = false →
        (updateGameState rf e s inp c dt cm).1.player1.isDashing = false ∧
        (updateGameState rf e s inp c dt cm).1.player1.dashCooldown
          = max 0 (s.player1.dashCooldown - dt * 1000)) ∧
    (∀ (c : GameConfig) (d : Bool) (p : Player),
        p.dashCooldown > 0 ∨ p.isDashing = true → tryStartDash c d p = p) ∧
    (∀ (c : GameConfig) (d : Bool) (p : Player),
        p.isDashing = false → (tryStartDash c d p).isDashing = true →
        d = true ∧ p.dashCooldown ≤ 0) := by
  refine ⟨?_, tryStartDash_blocked, ?_⟩
  · intro rf e s inp c dt cm hw hp hcd hdash
    have hblock := tryStartDash_blocked c inp.player1Dash s.player1 (Or.inl hcd)
    rcases hds : determineScoringSide (ballPhase rf s inp c dt cm) c with _ | side <;>
    · simp only [updateGameState, hw, hp, ne_eq, not_true_eq_false, or_false, if_false,
        Bool.false_eq_true, reduceIte, hds]
      constructor <;>
        simp [setLastXPhase_p1_isDashing, setLastXPhase_p1_dashCooldown,
          applyScoringState_p1_isDashing, applyScoringState_p1_dashCooldown,
          tickPlayerTimers, tickDash, tickDashCooldown, tickEmotion, tickKickAnim,
          apply_ite Player.isDashing, apply_ite Player.dashCooldown, hblock, hdash, hcd]
  · intro c d p hdash h
    simp only [tryStartDash] at h
    split_ifs at h with hc
    · exact ⟨hc.1, hc.2.1⟩
    · exact absurd (hdash ▸ h) (by simp)

/-- Witness for C6: one frame from a versus state whose player 1 has
`dashCooldown = 500` and a held dash key leaves the player not dashing with
the cooldown decayed to `max 0 (500 - 100)`. -/
theorem dash_request_gating_witness :
    (updateGameState rfZero zeroEnv
        { initVersus with player1 := { initVersus.player1 with dashCooldown := 500 } }
        dashRightInput DEFAULT_CONFIG (1/10) none).1.player1.isDashing = false ∧
    (updateGameState rfZero zeroEnv
        { initVersus with player1 := { initVersus.player1 with dashCooldown := 500 } }
        dashRightInput DEFAULT_CONFIG (1/10) none).1.player1.dashCooldown
      = max 0 ((500 : ℚ) - 1/10 * 1000) := by
  have h := dash_request_gating.1 rfZero zeroEnv
    { initVersus with player1 := { initVersus.player1 with dashCooldown := 500 } }
    dashRightInput DEFAULT_CONFIG (1/10) none
    (by simp [initVersus, initializeGameState])
    (by simp [initVersus, initializeGameState])
    (by simp [initVersus, initializeGameState]; try norm_num)
    (by simp [initVersus, initializeGameState])
  simpa [initVersus, initializeGameState] using h

/-- C7.  While a dash runs, the per-frame timer update decrements
`dashDuration` by the elapsed milliseconds clamped at 0; on the frame the
duration reaches 0 it clears `isDashing` and sets `dashCooldown` to the
full cooldown constant at that exact transition, while on a frame on which
the dash stays active the dash block leaves the cooldown untouched and a
zero cooldown stays at 0 through the whole timer update; both behaviours
propagate to the full `updateGameState` step. -/
theorem dash_timer_transition :
    (∀ (c : GameConfig) (dt : ℚ) (p : Player), p.isDashing = true →
        (tickDash c dt p).dashDuration = max 0 (p.dashDuration - dt * 1000) ∧
        (max 0 (p.dashDuration - dt * 1000) = 0 →
          (tickDash c dt p).isDashing = false ∧
          (tickDash c dt p).dashCooldown = c.dashCooldownTime) ∧
        (0 < max 0 (p.dashDuration - dt * 1000) →
          (tickDash c dt p).isDashing = true ∧
          (tickDash c dt p).dashCooldown = p.dashCooldown ∧
          (p.dashCooldown = 0 →
            (tickDashCooldown dt (tickDash c dt p)).dashCooldown = 0))) ∧
    (∀ (rf : RealFuns) (e : Env) (s : GameState) (inp : InputState) (c : GameConfig)
        (dt : ℚ) (cm : Option CustomMultipliers),
        s.winner = none → s.isPaused = false → s.player1.isDashing = true →
        (updateGameState rf e s inp c dt cm).1.player1.dashDuration
          = max 0 (s.player1.dashDuration - dt * 1000) ∧
        (0 < max 0 (s.player1.dashDuration - dt * 1000) → s.player1.dashCooldown = 0 →
          (updateGameState rf e s inp c dt cm).1.player1.isDashing = true ∧
          (updateGameState rf e s inp c dt cm).1.player1.dashCooldown = 0)) := by
  constructor
  · intro c dt p h
    refine ⟨by simp [tickDash, h], fun h0 => ?_, fun hpos => ?_⟩
    · simp [tickDash, h, h0]
    · have hdur : dt * 1000 < p.dashDuration := by
        rcases lt_sup_iff.mp hpos with h' | h'
        · exact absurd h' (lt_irrefl 0)
        · linarith
      refine ⟨by simp [tickDash, h, hpos.ne']; try linarith,
        by simp [tickDash, h, hpos.ne']; try linarith, fun hc0 => ?_⟩
      simp [tickDash, tickDashCooldown, h, hpos.ne', hc0]
      try linarith
  · intro rf e s inp c dt cm hw hp hdash
    have hblock := tryStartDash_blocked c inp.player1Dash s.player1 (Or.inr hdash)
    constructor
    · rcases hds : determineScoringSide (ballPhase rf s inp c dt cm) c with _ | side <;>
      · simp only [updateGameState, hw, hp, ne_eq, not_true_eq_false, or_false, if_false,
          Bool.false_eq_true, reduceIte, hds]
        simp [setLastXPhase_p1_dashDuration, applyScoringState_p1_dashDuration,
          applyScoringState_p1_isDashing, applyScoringState_p1_dashCooldown,
          tickPlayerTimers, tickDash, tickDashCooldown, tickEmotion, tickKickAnim,
          apply_ite Player.isDashing, apply_ite Player.dashDuration,
          apply_ite Player.dashCooldown, hblock, hdash]
    · intro hpos hc0
      have hdur : dt * 1000 < s.player1.dashDuration := by
        rcases lt_sup_iff.mp hpos with h' | h'
        · exact absurd h' (lt_irrefl 0)
        · linarith
      rcases hds : determineScoringSide (ballPhase rf s inp c dt cm) c with _ | side <;>
      · simp only [updateGameState, hw, hp, ne_eq, not_true_eq_false, or_false, if_false,
          Bool.false_eq_true, reduceIte, hds]
        constructor <;>
          simp [setLastXPhase_p1_isDashing, setLastXPhase_p1_dashCooldown,
            applyScoringState_p1_isDashing, applyScoringState_p1_dashCooldown,
            applyScoringState_p1_dashDuration,
            tickPlayerTimers, tickDash, tickDashCooldown, tickEmotion, tickKickAnim,
            apply_ite Player.isDashing, apply_ite Player.dashDuration,
            apply_ite Player.dashCooldown, hblock, hdash, hpos.ne', hc0] <;>
          linarith

/-- Witness for C7: from the first dash frame (`dashDuration = 400`,
`dashCooldown = 0`), a `0.1 s` step leaves the dash active with duration
`300` and the cooldown still at 0. -/
theorem dash_timer_transition_witness :
    (updateGameState rfZero zeroEnv c2State1 dashRightInput DEFAULT_CONFIG (1/10) none).1.player1.dashDuration
      = max 0 ((400 : ℚ) - 1/10 * 1000) ∧
    (updateGameState rfZero zeroEnv c2State1 dashRightInput DEFAULT_CONFIG (1/10) none).1.player1.isDashing
      = true ∧
    (updateGameState rfZero zeroEnv c2State1 dashRightInput DEFAULT_CONFIG (1/10) none).1.player1.dashCooldown
      = 0 := by
  have h := dash_timer_transition.2 rfZero zeroEnv c2State1 dashRightInput DEFAULT_CONFIG
    (1/10) none (by simp [c2State1]) (by simp [c2State1]) (by simp [c2State1])
  have h2 := h.2 (by simp [c2State1]; norm_num) (by simp [c2State1])
  refine ⟨?_, h2.1, h2.2⟩
  have h1 := h.1
  simpa [c2State1] using h1

/-- Counterexample to C8 as stated: a player with a positive emotion timer
but a `null` (or empty-string) recorded emotion and `isDashing = true`
makes the animation selector report `Dash` — the emotion branch requires a
truthy `lastEmotion` in addition to the positive timer. -/
theorem animation_priority_counterexample :
    emoNullDashPlayer.emotionTimer > 0 ∧
    emoNullDashPlayer.isDashing = true ∧
    getPlayerAnimation emoNullDashPlayer = "Dash" ∧
    emoEmptyDashPlayer.emotionTimer > 0 ∧
    emoEmptyDashPlayer.isDashing = true ∧
    getPlayerAnimation emoEmptyDashPlayer = "Dash" := by
  refine ⟨?_, ?_, ?_, ?_, ?_, ?_⟩ <;>
    simp [getPlayerAnimation, optTruthy, emoNullDashPlayer, emoEmptyDashPlayer, basePlayer,
      initVersus, initializeGameState]

/-- C8 (amended).  For every player state with `emotionTimer > 0` whose
recorded `lastEmotion` is a non-null, non-empty string — which is what the
game stores (`Happy`/`Angry`/`Fall`) — the animation selector returns that
recorded emotion, with strictly higher priority than the dash branch; in
particular it never reports `Dash` for any of the stored emotion labels,
even while `isDashing` is set. -/
theorem animation_priority_emotion_over_dash :
    (∀ (p : Player) (em : String), p.emotionTimer > 0 → p.lastEmotion = some em → em ≠ "" →
        getPlayerAnimation p = em) ∧
    (∀ (p : Player), p.emotionTimer > 0 →
        (p.lastEmotion = some "Happy" ∨ p.lastEmotion = some "Angry" ∨
          p.lastEmotion = some "Fall") →
        getPlayerAnimation p ≠ "Dash") := by
  constructor
  · intro p em ht he hne
    simp [getPlayerAnimation, optTruthy, ht, he, hne]
  · intro p ht he
    rcases he with he | he | he <;>
      simp [getPlayerAnimation, optTruthy, ht, he]

/-- Witness for C8 (amended): a dashing player whose recorded emotion is
`Happy` with a positive timer reports `Happy`, not `Dash`. -/
theorem animation_priority_witness :
    getPlayerAnimation
      { basePlayer with emotionTimer := 1, lastEmotion := some "Happy", isDashing := true }
      = "Happy" :=
  animation_priority_emotion_over_dash.1
    { basePlayer with emotionTimer := 1, lastEmotion := some "Happy", isDashing := true }
    "Happy" (by norm_num) rfl (by simp)

lemma applyScoringState_env1 (e1 e2 : Env) (k : ℕ) (c : GameConfig) (side : Side)
    (s : GameState) (hm : s.gameMode = GameMode.versus) :
    applyScoringState e1 k c side s = applyScoringState e2 k c side s :=
  applyScoringState_env e1 e2 k k c side s hm

/-- Counterexample to C9 as stated: two runs of `updateGameState` on
identical arguments (state, input, config, deltaTime, customMultipliers)
but under different ambient `Math.random()` streams emit different particle
lists (the kick-particle sizes are `minSize + random * (maxSize - minSize)`),
so the transition with particles enabled is not independent of the random
number generator. -/
theorem frame_determinism_counterexample :
    kickState.gameMode = GameMode.versus ∧
    DEFAULT_CONFIG.enableParticles = true ∧
    (updateGameState rfZero zeroEnv kickState kickInput DEFAULT_CONFIG 0 none).2 ≠
      (updateGameState rfZero halfEnv kickState kickInput DEFAULT_CONFIG 0 none).2 := by
  refine ⟨by simp [kickState, initVersus, initializeGameState], rfl, ?_⟩
  simp [updateGameState, resolveMultipliers, AI_DIFFICULTIES, movementPhase, tryStartDash,
    playerEffectiveSpeed, CHARACTER_STATS, applyPlayerInput, keepPlayerInBounds, kick1Happens,
    kick2Happens, checkPlayerCollision, playerDistSq, closestPointX, closestPointY, ballPhase,
    applyKick, updateTakyanPhysics, applyAirResistance, checkBallBoundaryCollision, jsMod, jsTrunc,
    determineScoringSide, checkGroundCollision, applyScoringState, tickPlayerTimers,
    tickDashCooldown, tickDash, tickEmotion, tickKickAnim, setLastXPhase, updateStreak, resetTakyan,
    emitParticles, createKickParticles, createScoreParticles, createGroundParticles,
    PARTICLE_CONFIG_kick, PARTICLE_CONFIG_score, PARTICLE_CONFIG_ground, COLORS_white,
    COLORS_player1, COLORS_player2, scoreParticleColor, List.range_succ,
    rfZero, zeroEnv, halfEnv, kickInput, idleInput, kickState, initVersus, initializeGameState,
    DEFAULT_CONFIG]
  norm_num

/-- C9 (amended).  `updateGameState` is a pure function of its arguments
together with the ambient effect environment (random stream and clock); in
versus mode the returned game state does not depend on that environment at
all — only the cosmetic particle list does — and with particles disabled
the entire versus-mode output is environment-independent. -/
theorem versus_state_env_independent :
    ∀ (rf : RealFuns) (e1 e2 : Env) (s : GameState) (inp : InputState) (c : GameConfig)
      (dt : ℚ) (cm : Option CustomMultipliers),
      s.gameMode = GameMode.versus →
      (updateGameState rf e1 s inp c dt cm).1 = (updateGameState rf e2 s inp c dt cm).1 ∧
      (c.enableParticles = false →
        updateGameState rf e1 s inp c dt cm = updateGameState rf e2 s inp c dt cm) := by
  intro rf e1 e2 s inp c dt cm hm
  by_cases hg : s.winner ≠ none ∨ s.isPaused = true
  · constructor
    · simp [updateGameState, hg]
    · intro _
      simp [updateGameState, hg]
  · push_neg at hg
    have hw : s.winner = none := by simpa using hg.1
    have hp : s.isPaused = false := by simpa using hg.2
    constructor
    · rcases hds : determineScoringSide (ballPhase rf s inp c dt cm) c with _ | side <;>
        simp only [updateGameState, hw, hp, ne_eq, not_true_eq_false, or_false, if_false,
          Bool.false_eq_true, reduceIte, hds]
      rw [applyScoringState_env1 e1 e2 _ _ _ _ (by simp [hm])]
    · intro hpart
      rcases hds : determineScoringSide (ballPhase rf s inp c dt cm) c with _ | side <;>
        simp only [updateGameState, hw, hp, ne_eq, not_true_eq_false, or_false, if_false,
          Bool.false_eq_true, reduceIte, hds, hpart, Bool.and_false, and_false, if_neg,
          not_false_eq_true]
      all_goals first
        | rfl
        | rw [applyScoringState_env1 e1 e2 _ _ _ _ (by simp [hm])]

/-- Witness for C9 (amended): the kick fixture's new state is the same under
the all-zeros and the all-halves random streams. -/
theorem versus_state_env_independent_witness :
    (updateGameState rfZero zeroEnv kickState kickInput DEFAULT_CONFIG 0 none).1 =
      (updateGameState rfZero halfEnv kickState kickInput DEFAULT_CONFIG 0 none).1 :=
  (versus_state_env_independent rfZero zeroEnv halfEnv kickState kickInput DEFAULT_CONFIG 0 none
    (by simp [kickState, initVersus, initializeGameState])).1

/-- The timer-and-`lastX` tail of the frame preserves the emotion
invariant. -/
lemma EmotionInv_tickAndLast (c : GameConfig) (dt prev1 prev2 : ℚ) (p1 p2 : Player)
    (t : Takyan) (w : Option Side) (ip : Bool) (lsp : Option Side) (gm : GameMode)
    (cb rc : ℚ) (ps : Option PracticeState)
    (h1 : emoInv p1) (h2 : emoInv p2) :
    EmotionInv (setLastXPhase prev1 prev2
      { player1 := tickPlayerTimers c dt p1, player2 := tickPlayerTimers c dt p2,
        takyan := t, winner := w, isPaused := ip, lastScoringPlayer := lsp,
        gameMode := gm, combo := cb, rallyCount := rc, practiceState := ps }) := by
  constructor
  · exact emoInv_of_fields _ (tickPlayerTimers c dt p1)
      (by simp [setLastXPhase_p1_emotionTimer]) (by simp [setLastXPhase_p1_lastEmotion])
      (emoInv_tickPlayerTimers c dt _ h1)
  · exact emoInv_of_fields _ (tickPlayerTimers c dt p2)
      (by simp [setLastXPhase_p2_emotionTimer]) (by simp [setLastXPhase_p2_lastEmotion])
      (emoInv_tickPlayerTimers c dt _ h2)

set_option maxHeartbeats 1600000 in
/-- One `updateGameState` step preserves the emotion invariant. -/
lemma EmotionInv_step (rf : RealFuns) (e : Env) (s : GameState) (inp : InputState)
    (c : GameConfig) (dt : ℚ) (cm : Option CustomMultipliers) (h : EmotionInv s) :
    EmotionInv (updateGameState rf e s inp c dt cm).1 := by
  by_cases hg : s.winner ≠ none ∨ s.isPaused = true
  · simpa [updateGameState, hg] using h
  · push_neg at hg
    have hw : s.winner = none := by simpa using hg.1
    have hp : s.isPaused = false := by simpa using hg.2
    rcases hds : determineScoringSide (ballPhase rf s inp c dt cm) c with _ | side <;>
      simp only [updateGameState, hw, hp, ne_eq, not_true_eq_false, or_false, if_false,
        Bool.false_eq_true, reduceIte, hds]
    · apply EmotionInv_tickAndLast
      · exact emoInv_of_fields _ s.player1 (by simp [apply_ite Player.emotionTimer])
          (by simp [apply_ite Player.lastEmotion]) h.1
      · exact emoInv_of_fields _ s.player2 (by simp [apply_ite Player.emotionTimer])
          (by simp [apply_ite Player.lastEmotion]) h.2
    · apply EmotionInv_tickAndLast
      · apply applyScoringState_p1_emotion_inv
        exact emoInv_of_fields _ s.player1 (by simp [apply_ite Player.emotionTimer])
          (by simp [apply_ite Player.lastEmotion]) h.1
      · apply applyScoringState_p2_emotion_inv
        exact emoInv_of_fields _ s.player2 (by simp [apply_ite Player.emotionTimer])
          (by simp [apply_ite Player.lastEmotion]) h.2

/-- C10.  In every state reachable from `initializeGameState` by
`updateGameState` steps with non-negative `deltaTime`, each player's
`emotionTimer` is non-negative and is positive exactly when `lastEmotion`
is non-null: the label is recorded exactly when the timer is set and
cleared exactly when the timer reaches 0. -/
theorem reachable_emotion_invariant :
    ∀ (rf : RealFuns) (s : GameState), Reachable rf s → EmotionInv s := by
  intro rf s h
  induction h with
  | init e config gameMode difficulty ch1 ch2 =>
    constructor <;> exact ⟨le_refl 0, by simp [initializeGameState]⟩
  | step s e inp c dt cm hr hdt ih =>
    exact EmotionInv_step _ _ _ _ _ _ _ ih

/-- Witness for C10: the invariant at the initial versus state, obtained by
applying the theorem to the base reachability constructor. -/
theorem reachable_emotion_invariant_witness : EmotionInv initVersus :=
  reachable_emotion_invariant rfZero initVersus
    (Reachable.init zeroEnv DEFAULT_CONFIG GameMode.versus AIDifficulty.medium
      CharacterType.c1 CharacterType.c1)

/-- Witness for C1: the credit rule applied to a concrete side-1 landing at
`x = 399` increments player 2's score. -/
theorem determineScoringSide_spec_and_credit_witness :
    (updateGameState rfZero zeroEnv (landingState 399) idleInput DEFAULT_CONFIG 0 none).1.player2.score
      = (landingState 399).player2.score + 1 :=
  ((determineScoringSide_spec_and_credit.2.1 rfZero zeroEnv (landingState 399) idleInput
      DEFAULT_CONFIG 0 none
      (by simp [landingState, initVersus, initializeGameState])
      (by simp [landingState, initVersus, initializeGameState])
      (by simp [landingState, initVersus, initializeGameState])).1
    (by
      simp [ballPhase, resolveMultipliers, kick1Happens, kick2Happens, checkPlayerCollision,
        playerDistSq, closestPointX, closestPointY, applyKick, updateTakyanPhysics,
        applyAirResistance, checkBallBoundaryCollision, jsMod, jsTrunc, determineScoringSide,
        checkGroundCollision, landingState, initVersus, initializeGameState, DEFAULT_CONFIG,
        idleInput, rfZero, AI_DIFFICULTIES]
      norm_num)).1
